import Mathlib

/-!
Verification of the pyrailroad diagram engine (src/pyrailroad/elements.py)
against its natural-language specification.

The development shallowly embeds the parts of `elements.py` the claims
need:

* the structural-dictionary interchange form (`DictVal`) and the tree of
  diagram nodes (`Tree`), together with `toDict` / `fromDict`
  (serialisation, §4.4 of the spec);
* the construction-time measurement formulas (`Measure`, `seqMeasure`,
  `choiceMeasure`, ...) for §4.1;
* the text-diagram grid engine (`TDRaw`, `TextDiagram.mk`,
  `appendRight`, `appendBelow`, and the per-kind `textDiagram`
  renderers) for §4.3;
* the standalone SVG writer's state transformation for §4.5.

Python floats are modelled as `ℚ` (all construction-time arithmetic the
claims touch is exact on the default integer parameters), Python ints as
`ℤ`, Python exceptions as an explicit `PyExn` sum threaded through
`Except`.
-/

namespace Pyrailroad

/-- Python exception outcomes that `elements.py` can raise while building a
tree from a structural dictionary.  `parseException` is the library's own
`ParseException` from exceptions.py; the rest are builtin Python
exceptions that the constructors' arithmetic or indexing raises. -/
inductive PyExn where
  | parseException (msg : String)
  | keyError (key : String)
  | typeError
  | valueError
  | indexError
  | attributeError
  | assertionError
  | zeroDivisionError
deriving DecidableEq, Repr

/-- JSON/YAML-like structural values, the interchange form of §6.
Objects are association lists in insertion order (Python dicts preserve
insertion order; every dictionary the claims compare is in a fixed
canonical key order, so list equality coincides with Python `==` on the
inputs appearing in the theorems below). -/
inductive DictVal where
  | str (s : String)
  | int (n : Int)
  | bool (b : Bool)
  | null
  | list (xs : List DictVal)
  | obj (kvs : List (String × DictVal))

/-- `d[k]` lookup on an association-list object body (first match, like a
Python dict whose keys are unique). -/
def lookupKV (k : String) : List (String × DictVal) → Option DictVal
  | [] => none
  | (k', v) :: rest => if k' = k then some v else lookupKV k rest

/-- The diagram-node tree: one constructor per concrete `DiagramItem`
subclass of elements.py (the "node kinds" of §3).  Pseudo-elements
(`Optional`, `ZeroOrMore`) are not kinds: `from_dict` lowers them to
`choice`/`oneOrMore` nodes.  `choice` and `multipleChoice` store the raw
Python `int` default (which the code does not bound below, see
`mkChoice`).  A `group` label is `none`, or the label node (a string
label is lowered to a `comment` node by the constructor). -/
inductive Tree where
  | terminal (text : String) (href title : Option String) (cls : String)
  | nonTerminal (text : String) (href title : Option String) (cls : String)
  | comment (text : String) (href title : Option String) (cls : String)
  | expression (text : String) (href title : Option String) (cls : String)
  | skip
  | start (type : String) (label : Option String)
  | end_ (type : String)
  | arrow (direction : String)
  | sequence (items : List Tree)
  | stack (items : List Tree)
  | optionalSequence (items : List Tree)
  | alternatingSequence (items : List Tree)
  | choice (default : Int) (items : List Tree)
  | multipleChoice (default : Int) (type : String) (items : List Tree)
  | horizontalChoice (items : List Tree)
  | oneOrMore (item : Tree) (rep : Tree)
  | group (item : Tree) (label : Option Tree)
  | diagram (items : List Tree)

/-- `isinstance(item, Start)` test used by `Diagram.__init__`. -/
def Tree.isStart : Tree → Bool
  | .start _ _ => true
  | _ => false

/-- `isinstance(item, End)` test used by `Diagram.__init__`. -/
def Tree.isEnd : Tree → Bool
  | .end_ _ => true
  | _ => false

/-- `needs_space` attribute per node kind: `DiagramItem.__init__` sets it
to `False`; the subclasses listed here overwrite it with `True`
(`Sequence`, `Stack`, `MultipleChoice`, `OneOrMore`, `Group`,
`Terminal`, `NonTerminal`, `Expression`, `Comment`).  `Choice`,
`HorizontalChoice`, `OptionalSequence`, `AlternatingSequence` leave or
reset it to `False`. -/
def Tree.needsSpace : Tree → Bool
  | .terminal _ _ _ _ => true
  | .nonTerminal _ _ _ _ => true
  | .comment _ _ _ _ => true
  | .expression _ _ _ _ => true
  | .sequence _ => true
  | .stack _ => true
  | .multipleChoice _ _ _ => true
  | .oneOrMore _ _ => true
  | .group _ _ => true
  | _ => false

/-- Result of `DiagramItem.from_dict`: a node, Python `None` (returned
when the input has no `"element"` key), or a raised exception. -/
inductive FD where
  | ok (t : Tree)
  | retNone
  | exn (e : PyExn)

/-- Python `None`-or-string attribute as a structural value. -/
def optStr : Option String → DictVal
  | none => .null
  | some s => .str s

mutual

/-- `to_dict` of elements.py, dispatched over the node kind.  Each case
reproduces the corresponding `to_dict` method's dictionary literally, in
its key order. -/
def toDict : Tree → DictVal
  | .terminal text href title cls =>
      .obj [("element", .str "Terminal"), ("text", .str text),
            ("href", optStr href), ("title", optStr title),
            ("cls", .str cls)]
  | .nonTerminal text href title cls =>
      .obj [("element", .str "NonTerminal"), ("text", .str text),
            ("href", optStr href), ("title", optStr title),
            ("cls", .str cls)]
  | .comment text href title cls =>
      .obj [("element", .str "Comment"), ("text", .str text),
            ("href", optStr href), ("title", optStr title),
            ("cls", .str cls)]
  | .expression text href title cls =>
      .obj [("element", .str "Expression"), ("text", .str text),
            ("href", optStr href), ("title", optStr title),
            ("cls", .str cls)]
  | .skip => .obj [("element", .str "Skip")]
  | .start type label =>
      .obj [("element", .str "Start"), ("type", .str type),
            ("label", optStr label)]
  | .end_ type => .obj [("element", .str "End"), ("type", .str type)]
  | .arrow direction =>
      .obj [("element", .str "Arrow"), ("direction", .str direction)]
  | .sequence items =>
      .obj [("element", .str "Sequence"), ("items", .list (toDictList items))]
  | .stack items =>
      .obj [("element", .str "Stack"), ("items", .list (toDictList items))]
  | .optionalSequence items =>
      .obj [("element", .str "OptionalSequence"),
            ("items", .list (toDictList items))]
  | .alternatingSequence items =>
      .obj [("element", .str "AlternatingSequence"),
            ("items", .list (toDictList items))]
  | .choice default items =>
      .obj [("element", .str "Choice"), ("default", .int default),
            ("items", .list (toDictList items))]
  | .multipleChoice default type items =>
      .obj [("element", .str "MultipleChoice"), ("default", .int default),
            ("type", .str type), ("items", .list (toDictList items))]
  | .horizontalChoice items =>
      .obj [("element", .str "HorizontalChoice"),
            ("items", .list (toDictList items))]
  | .oneOrMore item rep =>
      .obj [("element", .str "OneOrMore"), ("item", toDict item),
            ("repeat", toDict rep)]
  | .group item label =>
      .obj [("element", .str "Group"), ("item", toDict item),
            ("label", match label with
                      | none => .null
                      | some l => toDict l)]
  | .diagram items =>
      .obj [("element", .str "Diagram"), ("items", .list (toDictList items))]

/-- `[i.to_dict() for i in items]`. -/
def toDictList : List Tree → List DictVal
  | [] => []
  | t :: ts => toDict t :: toDictList ts

end

/-- Python truthiness of a structural value (`bool(x)`). -/
def pyTruthy : DictVal → Bool
  | .str s => !s.isEmpty
  | .int n => n ≠ 0
  | .bool b => b
  | .null => false
  | .list xs => !xs.isEmpty
  | .obj kvs => !kvs.isEmpty

/-- `f"{x}"` for the scalar values that can appear as an `element` tag or a
`default` attribute in the error messages of `from_dict`.  Containers get a
simplified rendering (their exact Python repr never appears in a claim). -/
def pyStr : DictVal → String
  | .str s => s
  | .int n => toString n
  | .bool b => if b then "True" else "False"
  | .null => "None"
  | .list _ => "[...]"
  | .obj _ => "{...}"

/-- `int(x)`: identity on ints, `True`/`False` to 1/0, numeric strings
parsed (`ValueError` otherwise), `TypeError` on `None` and containers. -/
def pyIntOf : DictVal → Except PyExn Int
  | .int n => .ok n
  | .bool b => .ok (if b then 1 else 0)
  | .str s => match s.toInt? with
              | some n => .ok n
              | none => .error .valueError
  | _ => .error .typeError

/-- Turn `[from_dict(x) for x in items]` results into the argument tuple a
constructor receives: the first raised exception propagates (the `*( ... )`
unpacking evaluates children left to right before the constructor runs);
a child that parsed to Python `None` stays `none`. -/
def collectFD : List FD → Except PyExn (List (Option Tree))
  | [] => .ok []
  | .exn e :: _ => .error e
  | .ok t :: rest => (collectFD rest).map (some t :: ·)
  | .retNone :: rest => (collectFD rest).map (none :: ·)

/-- All children are real nodes (no Python `None` among them). -/
def allSome : List (Option Tree) → Option (List Tree)
  | [] => some []
  | none :: _ => none
  | some t :: rest => (allSome rest).map (t :: ·)

/-- `Sequence(*items)`: the measurement loop reads `item.width` of every
child (`AttributeError` on a `None` child) and then `self.items[0]`
(`IndexError` on an empty argument list). -/
def mkSequence (children : List (Option Tree)) : Except PyExn Tree :=
  match allSome children with
  | none => .error .attributeError
  | some [] => .error .indexError
  | some ts => .ok (.sequence ts)

/-- `Stack(*items)`: `max(...)` over the items' widths raises `ValueError`
when empty, `AttributeError` on a `None` child. -/
def mkStack (children : List (Option Tree)) : Except PyExn Tree :=
  match children with
  | [] => .error .valueError
  | _ => match allSome children with
         | none => .error .attributeError
         | some ts => .ok (.stack ts)

/-- `Diagram(*items, type=...)`: auto-inserts `Start(type)` in front unless
the first item is a `Start`, and `End(type)` at the back unless the last is
an `End` (only when the argument list is non-empty); the measurement loop
then raises `AttributeError` on `None` children, and `self.items[0]`
raises `IndexError` when the list stayed empty. -/
def mkDiagram (children : List (Option Tree)) (type : String := "simple") :
    Except PyExn Tree :=
  match children with
  | [] => .error .indexError
  | first :: _ =>
    let firstIsStart := match first with
                        | some t => t.isStart
                        | none => false
    let lastIsEnd := match children.getLast? with
                     | some (some t) => t.isEnd
                     | _ => false
    let items1 := if firstIsStart then children
                  else some (.start type none) :: children
    let items2 := if lastIsEnd then items1 else items1 ++ [some (.end_ type)]
    match allSome items2 with
    | none => .error .attributeError
    | some ts => .ok (.diagram ts)

/-- `Choice(default, *items)`: the only bound the constructor checks is
`assert default < len(items)` (AssertionError); there is no lower bound.
`max(...)` over the widths then raises `ValueError` when the item list is
empty and `AttributeError` on a `None` child, and `self.items[default]`
raises `IndexError` when `default < -len(items)`; every other negative
`default` constructs successfully through Python's negative indexing. -/
def mkChoice (default : Int) (children : List (Option Tree)) :
    Except PyExn Tree :=
  if ¬ default < (children.length : Int) then .error .assertionError
  else
    match allSome children with
    | none => .error .attributeError
    | some [] => .error .valueError
    | some ts => if default < -(ts.length : Int) then .error .indexError
                 else .ok (.choice default ts)

/-- `MultipleChoice(default, type, *items)`:
`assert 0 <= default < len(items)` then `assert type in ["any", "all"]`,
then the measurement loop (`AttributeError` on `None` children).  A
non-string `type` argument is passed as `none` (it can never be a member
of `["any", "all"]`, so the second assert fails). -/
def mkMultipleChoice (default : Int) (type : Option String)
    (children : List (Option Tree)) : Except PyExn Tree :=
  if ¬ (0 ≤ default ∧ default < (children.length : Int)) then
    .error .assertionError
  else
    match type with
    | none => .error .assertionError
    | some ty =>
      if ¬ (ty = "any" ∨ ty = "all") then .error .assertionError
      else
        match allSome children with
        | none => .error .attributeError
        | some ts => .ok (.multipleChoice default ty ts)

/-- `AlternatingSequence(*items)`: `__new__` raises a `ParseException`
unless given exactly two arguments; the measurement then raises
`AttributeError` on `None` children. -/
def mkAlternatingSequence (children : List (Option Tree)) :
    Except PyExn Tree :=
  if children.length ≠ 2 then
    .error (.parseException
      ("AlternatingSequence takes exactly two arguments, but got " ++
       toString children.length ++ " arguments."))
  else
    match allSome children with
    | none => .error .attributeError
    | some ts => .ok (.alternatingSequence ts)

/-- `HorizontalChoice.__new__` returns `Sequence(*items)` for at most one
argument; otherwise the real node is built (measurement: `AttributeError`
on `None` children). -/
def mkHorizontalChoice (children : List (Option Tree)) : Except PyExn Tree :=
  if children.length ≤ 1 then mkSequence children
  else
    match allSome children with
    | none => .error .attributeError
    | some ts => .ok (.horizontalChoice ts)

/-- `OptionalSequence.__new__` returns `Sequence(*items)` for at most one
argument; otherwise the real node is built. -/
def mkOptionalSequence (children : List (Option Tree)) : Except PyExn Tree :=
  if children.length ≤ 1 then mkSequence children
  else
    match allSome children with
    | none => .error .attributeError
    | some ts => .ok (.optionalSequence ts)

/-- `OneOrMore(item, repeat=None)`: `repeat = repeat or Skip()` (so a
`None` repeat silently becomes `Skip`), then the measurement reads
`self.item.width` (`AttributeError` when `item` is `None`). -/
def mkOneOrMore (item : Option Tree) (rep : Option Tree) :
    Except PyExn Tree :=
  let rep' := rep.getD .skip
  match item with
  | none => .error .attributeError
  | some it => .ok (.oneOrMore it rep')

/-- The `label` argument of `Group.__init__` as the three shapes
`from_dict` can pass: absent/None, a plain string, or a parsed node
(which itself may be Python `None` when the label dictionary had no
`"element"` key). -/
inductive PyLabel where
  | noneV
  | strV (s : String)
  | nodeV (t : Option Tree)

/-- `Group(item, label)`: a `DiagramItem` label is kept as is, a truthy
string becomes `Comment(label)` (with default href/title/cls), everything
falsy (None, empty string) leaves the group unlabeled; the measurement
then reads `self.item.width` (`AttributeError` when `item` is `None`). -/
def mkGroup (item : Option Tree) (label : PyLabel) : Except PyExn Tree :=
  let lab : Option Tree :=
    match label with
    | .nodeV (some t) => some t
    | .strV s => if s.isEmpty then none else some (.comment s none none "")
    | _ => none
  match item with
  | none => .error .attributeError
  | some it => .ok (.group it lab)

/-- `optional(item, skip)` = `Choice(0 if skip else 1, Skip(), item)`. -/
def optionalD (item : Option Tree) (skip : Bool) : Except PyExn Tree :=
  mkChoice (if skip then 0 else 1) [some .skip, item]

/-- `zero_or_more(item, repeat, skip)` =
`optional(OneOrMore(item, repeat), skip)`. -/
def zeroOrMoreD (item rep : Option Tree) (skip : Bool) : Except PyExn Tree :=
  match mkOneOrMore item rep with
  | .error e => .error e
  | .ok om => optionalD (some om) skip

/-- Required string field (`data[k]` then use as text): `KeyError` when
missing; a non-string raises `TypeError` at `len(text)` /
`" ".join(...)`. -/
def reqStr (kvs : List (String × DictVal)) (k : String) :
    Except PyExn String :=
  match lookupKV k kvs with
  | none => .error (.keyError k)
  | some (.str s) => .ok s
  | some _ => .error .typeError

/-- Optional string field (`data.get(k, None)`): absent or `None` give
`none`.  Python would store any other non-string value unchecked (it is
never touched again before serialisation); the model rejects that shape
with `TypeError` — no claim exercises it. -/
def getOptStr (kvs : List (String × DictVal)) (k : String) :
    Except PyExn (Option String) :=
  match lookupKV k kvs with
  | none => .ok none
  | some .null => .ok none
  | some (.str s) => .ok (some s)
  | some _ => .error .typeError

/-- `data.get("cls", "")`, which flows into `" ".join(["...", cls])`
(`TypeError` for non-strings). -/
def getCls (kvs : List (String × DictVal)) : Except PyExn String :=
  match lookupKV "cls" kvs with
  | none => .ok ""
  | some (.str s) => .ok s
  | some _ => .error .typeError

/-- The `type`-style fields with a `"simple"`/`"right"` fallback:
`if k not in data.keys() or data[k] is None: fallback else data[k]`.
Non-string values would be stored unchecked; the model rejects them with
`TypeError` — no claim exercises that shape. -/
def getTypeField (kvs : List (String × DictVal)) (k fallback : String) :
    Except PyExn String :=
  match lookupKV k kvs with
  | none => .ok fallback
  | some .null => .ok fallback
  | some (.str s) => .ok s
  | some _ => .error .typeError

/-- The `Choice` case's `default` extraction:
`try: int(data["default"]) except TypeError: ParseException(...)
except KeyError: data["default"] = 0`.  A non-numeric string raises an
uncaught `ValueError` from `int`. -/
def choiceDefault (kvs : List (String × DictVal)) : Except PyExn Int :=
  match lookupKV "default" kvs with
  | none => .ok 0
  | some v =>
    match pyIntOf v with
    | .ok n => .ok n
    | .error .typeError =>
        .error (.parseException
          ("Attribute \"default\" must be an integer, got: " ++
           pyStr v ++ "."))
    | .error e => .error e

/-- `data.get("skip", False)` followed by Python truthiness. -/
def getSkip (kvs : List (String × DictVal)) : Bool :=
  match lookupKV "skip" kvs with
  | none => false
  | some v => pyTruthy v

/-- Required `"items"` list: `KeyError` when missing; iterating a
non-list raises (`TypeError` for scalars — a rough model of Python's
various failure modes on non-list iterables, none of which a claim
exercises). -/
def reqItems (kvs : List (String × DictVal)) :
    Except PyExn (List DictVal) :=
  match lookupKV "items" kvs with
  | none => .error (.keyError "items")
  | some (.list xs) => .ok xs
  | some _ => .error .typeError

/-- Lift a constructor result into a `from_dict` outcome. -/
def exceptFD : Except PyExn Tree → FD
  | .error e => .exn e
  | .ok t => .ok t

/-- Chain an extraction step: an exception propagates out of
`from_dict`. -/
def bindE {α : Type} (e : Except PyExn α) (f : α → FD) : FD :=
  match e with
  | .error ex => .exn ex
  | .ok a => f a

/-- `from_dict` result as the `Option`-shaped constructor argument. -/
def fdOpt : FD → Except PyExn (Option Tree)
  | .exn e => .error e
  | .retNone => .ok none
  | .ok t => .ok (some t)

/-- The dispatch of `DiagramItem.from_dict` over a recognised string
`element` tag, one branch per `case` of the Python `match`, in order.
So that the recursive `fromDict` stays syntactically small, the child
parses are computed by the caller and passed in: `itemsLK`/`itemLK`/
`repeatLK`/`labelLK` are the raw `data["items"]`/`data["item"]`/
`data["repeat"]`/`data["label"]` lookups and `itemsParsed` etc. their
`from_dict` results.  Parsing is pure, so a branch that ignores an
unused payload behaves exactly as Python's lazy evaluation of the same
expressions. -/
def fromDictCases (s : String) (kvs : List (String × DictVal))
    (itemsLK : Option DictVal) (itemsParsed : List FD)
    (itemLK : Option DictVal) (itemParsed : FD)
    (repeatLK : Option DictVal) (repeatParsed : FD)
    (labelLK : Option DictVal) (labelParsed : FD) : FD :=
  if s = "Diagram" then
    match itemsLK with
    | none => .exn (.keyError "items")
    | some (.list _) =>
        bindE (collectFD itemsParsed) fun cs =>
          exceptFD (mkDiagram cs "simple")
    | some _ => .exn .typeError
  else if s = "Start" then
    bindE (getTypeField kvs "type" "simple") fun ty =>
      bindE (getOptStr kvs "label") fun lab =>
        .ok (.start ty lab)
  else if s = "End" then
    bindE (getTypeField kvs "type" "simple") fun ty =>
      .ok (.end_ ty)
  else if s = "Arrow" then
    bindE (getTypeField kvs "direction" "right") fun dir =>
      .ok (.arrow dir)
  else if s = "Terminal" then
    bindE (reqStr kvs "text") fun text =>
      bindE (getOptStr kvs "href") fun href =>
        bindE (getOptStr kvs "title") fun title =>
          bindE (getCls kvs) fun cls =>
            .ok (.terminal text href title cls)
  else if s = "NonTerminal" then
    bindE (reqStr kvs "text") fun text =>
      bindE (getOptStr kvs "href") fun href =>
        bindE (getOptStr kvs "title") fun title =>
          bindE (getCls kvs) fun cls =>
            .ok (.nonTerminal text href title cls)
  else if s = "Stack" then
    match itemsLK with
    | none => .exn (.keyError "items")
    | some (.list _) =>
        bindE (collectFD itemsParsed) fun cs => exceptFD (mkStack cs)
    | some _ => .exn .typeError
  else if s = "Choice" then
    bindE (choiceDefault kvs) fun dflt =>
      match itemsLK with
      | none => .exn (.keyError "items")
      | some (.list _) =>
          bindE (collectFD itemsParsed) fun cs =>
            exceptFD (mkChoice dflt cs)
      | some _ => .exn .typeError
  else if s = "HorizontalChoice" then
    match itemsLK with
    | none => .exn (.keyError "items")
    | some (.list _) =>
        bindE (collectFD itemsParsed) fun cs =>
          exceptFD (mkHorizontalChoice cs)
    | some _ => .exn .typeError
  else if s = "OptionalSequence" then
    match itemsLK with
    | none => .exn (.keyError "items")
    | some (.list _) =>
        bindE (collectFD itemsParsed) fun cs =>
          exceptFD (mkOptionalSequence cs)
    | some _ => .exn .typeError
  else if s = "AlternatingSequence" then
    match itemsLK with
    | none => .exn (.keyError "items")
    | some (.list _) =>
        bindE (collectFD itemsParsed) fun cs =>
          exceptFD (mkAlternatingSequence cs)
    | some _ => .exn .typeError
  else if s = "MultipleChoice" then
    match lookupKV "default" kvs with
    | none => .exn (.keyError "default")
    | some dv =>
      bindE (pyIntOf dv) fun dflt =>
        match lookupKV "type" kvs with
        | none => .exn (.keyError "type")
        | some tv =>
          match itemsLK with
          | none => .exn (.keyError "items")
          | some (.list _) =>
              bindE (collectFD itemsParsed) fun cs =>
                exceptFD (mkMultipleChoice dflt
                  (match tv with
                   | .str ty => some ty
                   | _ => none) cs)
          | some _ => .exn .typeError
  else if s = "Skip" then .ok .skip
  else if s = "OneOrMore" then
    match itemLK with
    | none => .exn (.keyError "item")
    | some _ =>
      match repeatLK with
      | none =>
          bindE (fdOpt itemParsed) fun it =>
            exceptFD (mkOneOrMore it none)
      | some .null =>
          bindE (fdOpt itemParsed) fun it =>
            exceptFD (mkOneOrMore it none)
      | some _ =>
          bindE (fdOpt itemParsed) fun it =>
            bindE (fdOpt repeatParsed) fun rp =>
              exceptFD (mkOneOrMore it rp)
  else if s = "ZeroOrMore" then
    match itemLK with
    | none => .exn (.keyError "item")
    | some _ =>
      match repeatLK with
      | none =>
          bindE (fdOpt itemParsed) fun it =>
            exceptFD (zeroOrMoreD it none (getSkip kvs))
      | some .null =>
          bindE (fdOpt itemParsed) fun it =>
            exceptFD (zeroOrMoreD it none (getSkip kvs))
      | some _ =>
          bindE (fdOpt itemParsed) fun it =>
            bindE (fdOpt repeatParsed) fun rp =>
              exceptFD (zeroOrMoreD it rp (getSkip kvs))
  else if s = "Optional" then
    match itemLK with
    | none => .exn (.keyError "item")
    | some _ =>
        bindE (fdOpt itemParsed) fun it =>
          exceptFD (optionalD it (getSkip kvs))
  else if s = "Comment" then
    bindE (reqStr kvs "text") fun text =>
      bindE (getOptStr kvs "href") fun href =>
        bindE (getOptStr kvs "title") fun title =>
          bindE (getCls kvs) fun cls =>
            .ok (.comment text href title cls)
  else if s = "Sequence" then
    match itemsLK with
    | none => .exn (.keyError "items")
    | some (.list _) =>
        bindE (collectFD itemsParsed) fun cs =>
          exceptFD (mkSequence cs)
    | some _ => .exn .typeError
  else if s = "Group" then
    match labelLK with
    | none =>
      match itemLK with
      | none => .exn (.keyError "item")
      | some _ =>
          bindE (fdOpt itemParsed) fun it =>
            exceptFD (mkGroup it .noneV)
    | some .null =>
      match itemLK with
      | none => .exn (.keyError "item")
      | some _ =>
          bindE (fdOpt itemParsed) fun it =>
            exceptFD (mkGroup it .noneV)
    | some (.str labS) =>
      match itemLK with
      | none => .exn (.keyError "item")
      | some _ =>
          bindE (fdOpt itemParsed) fun it =>
            exceptFD (mkGroup it (.strV labS))
    | some _ =>
      match itemLK with
      | none => .exn (.keyError "item")
      | some _ =>
          bindE (fdOpt itemParsed) fun it =>
            bindE (fdOpt labelParsed) fun lb =>
              exceptFD (mkGroup it (.nodeV lb))
  else if s = "Expression" then
    bindE (reqStr kvs "text") fun text =>
      bindE (getOptStr kvs "href") fun href =>
        bindE (getOptStr kvs "title") fun title =>
          bindE (getCls kvs) fun cls =>
            .ok (.expression text href title cls)
  else .exn (.parseException ("Unknown element: " ++ s ++ "."))

mutual

/-- `DiagramItem.from_dict(data, parameters)` with an empty `parameters`
dictionary (no claim passes parameters; every `parameters.get(...)` falls
back to its default).  A non-dictionary input raises at `data.keys()`;
a dictionary without an `"element"` key returns Python `None`; an
unrecognised `"element"` value raises
`ParseException(f"Unknown element: {data['element']}.")`.  String tags
dispatch through `fromDictCases`, which receives the child parses
(computed here so the recursion is visible to the termination
checker). -/
def fromDict (d : DictVal) : FD :=
  match d with
  | .obj kvs =>
    match lookupKV "element" kvs with
    | none => .retNone
    | some (.str s) =>
        fromDictCases s kvs
          (lookupKV "items" kvs)
          (match h : lookupKV "items" kvs with
           | some (.list xs) => fromDictList xs
           | _ => [])
          (lookupKV "item" kvs)
          (match h : lookupKV "item" kvs with
           | some v => fromDict v
           | none => .retNone)
          (lookupKV "repeat" kvs)
          (match h : lookupKV "repeat" kvs with
           | some v => fromDict v
           | none => .retNone)
          (lookupKV "label" kvs)
          (match h : lookupKV "label" kvs with
           | some v => fromDict v
           | none => .retNone)
    | some ev => .exn (.parseException ("Unknown element: " ++ pyStr ev ++ "."))
  | _ => .exn .attributeError
termination_by sizeOf d
decreasing_by
  all_goals
    simp_wf
    (have aux : forall (k : String) (l : List (String × DictVal)) (v : DictVal),
          lookupKV k l = some v → sizeOf v < sizeOf l := by
      intro k l
      induction l with
      | nil => intro v hv; simp [lookupKV] at hv
      | cons p rest ih =>
        intro v hv
        obtain ⟨k2, v2⟩ := p
        simp only [lookupKV] at hv
        split at hv
        · cases hv; simp; omega
        · have := ih v hv
          simp
          omega
     have := aux _ _ _ h
     simp at this ⊢
     omega)

/-- `[DiagramItem.from_dict(item, parameters) for item in items]`. -/
def fromDictList (l : List DictVal) : List FD :=
  match l with
  | [] => []
  | d :: ds => fromDict d :: fromDictList ds
termination_by sizeOf l
decreasing_by
  all_goals simp_wf
  all_goals omega

end

/-! ## Construction-time measurements (§4.1)

Every `DiagramItem` carries `up`, `height`, `down`, `width` (floats,
modelled as `ℚ` — all constructors the claims touch use exact rational
arithmetic) and `needs_space`.  The per-kind `__init__` bodies below are
transcribed statement by statement. -/

/-- The measurement fields of a `DiagramItem` (`up` / `height` / `down` /
`width` initialised by `DiagramItem.__init__` and overwritten by each
subclass constructor) together with its `needs_space` flag. -/
structure Measure where
  up : ℚ
  height : ℚ
  down : ℚ
  width : ℚ
  needsSpace : Bool
deriving DecidableEq, Repr

/-- Placeholder measure for out-of-range Python list indexing; every use
in a successful construction is proven in range. -/
def junkM : Measure := ⟨0, 0, 0, 0, false⟩

/-- Python `items[i]` with negative-index wrapping.  Out-of-range access
raises `IndexError` in Python; the `junkM` default is never reached in
the index ranges the theorems use. -/
def pyGetM (l : List Measure) (i : Int) : Measure :=
  if 0 ≤ i then l.getD i.toNat junkM
  else l.getD (l.length - (-i).toNat) junkM

/-- Python `seps[i] = v` on the separator list, with negative-index
wrapping (`self.separators[i - 1]` is reached with `i - 1 = -1` when
`default` is negative). -/
def pySetQ (l : List ℚ) (i : Int) (v : ℚ) : List ℚ :=
  if 0 ≤ i then l.set i.toNat v
  else l.set (l.length - (-i).toNat) v

/-- `max(...)` over a non-empty generator of rationals (`ValueError` on
empty, handled by the callers' `Option`). -/
def maxQ : List ℚ → ℚ
  | [] => 0
  | x :: xs => xs.foldl max x

/-- The rendering parameters a constructor reads
(`self.parameters[...]`). -/
structure Params where
  VS : ℚ
  AR : ℚ
  charWidth : ℚ
  commentCharWidth : ℚ
deriving DecidableEq, Repr

/-- Modelled from the spec: the repository's `defaults.py` (imported by
`elements.py` for `VS`, `AR`, `CHAR_WIDTH`, ...) is not under src/; the
values follow §3 of the spec (`VS` 8, `AR` 10, `charWidth` 8) and the
in-src precursor module railroad.py, which hard-codes the same numbers
(`comment_char_width` 7). -/
def defaultParams : Params := ⟨8, 10, 8, 7⟩

/-- Python truthiness of the optional `label` string of `Start`
(`if label:` — `None` and `""` are falsy). -/
def pyTruthyStr : Option String → Bool
  | none => false
  | some s => !s.isEmpty

/-- The shared measurement fold of `Sequence.__init__` and
`Diagram.__init__` (their loop bodies are textually identical):
starting from zeros, for each item
`width += item.width + (20 if item.needs_space else 0)`;
`up = max(up, item.up - height)`; `height += item.height`;
`down = max(down - item.height, item.down)`. -/
def railFold (items : List Measure) : ℚ × ℚ × ℚ × ℚ :=
  items.foldl
    (fun (st : ℚ × ℚ × ℚ × ℚ) it =>
      let w := st.1; let u := st.2.1; let h := st.2.2.1; let d := st.2.2.2
      (w + it.width + (if it.needsSpace then 20 else 0),
       max u (it.up - h), h + it.height, max (d - it.height) it.down))
    (0, 0, 0, 0)

/-- `Sequence.__init__` measurements: the `railFold` loop, then
`width -= 10` at either end whose item `needs_space`; an empty item list
raises `IndexError` at `self.items[0]`. -/
def sequenceInit (items : List Measure) : Option Measure :=
  match items with
  | [] => none
  | first :: _ =>
    let st := railFold items
    let last := (items.getLast?).getD junkM
    some { up := st.2.1, height := st.2.2.1, down := st.2.2.2,
           width := st.1 - (if first.needsSpace then 10 else 0)
                         - (if last.needsSpace then 10 else 0),
           needsSpace := true }

/-- `Diagram.__init__` measurements over its final item list (after the
`Start`/`End` auto-insertion): the same fold and end adjustments as
`Sequence`, but `needs_space` stays `False`. -/
def diagramInit (items : List Measure) : Option Measure :=
  match items with
  | [] => none
  | first :: _ =>
    let st := railFold items
    let last := (items.getLast?).getD junkM
    some { up := st.2.1, height := st.2.2.1, down := st.2.2.2,
           width := st.1 - (if first.needsSpace then 10 else 0)
                         - (if last.needsSpace then 10 else 0),
           needsSpace := false }

/-- Result of `Choice.__init__`: the four measurements and the
`self.separators` list. -/
structure ChoiceResult where
  up : ℚ
  height : ℚ
  down : ℚ
  width : ℚ
  separators : List ℚ
deriving DecidableEq, Repr

/-- The first `Choice.__init__` loop (`for i in range(default - 1, -1,
-1)`): called with fuel `k`, it processes indices `k-1, k-2, ..., 0`,
writing `separators[i]` and accumulating `self.up`.  The loop body is the
code's: `arcs` is `2*AR` for the gap adjacent to the default branch,
`entryDelta = lowerItem.up + VS + item.down + item.height`,
`exitDelta = lowerItem.height + lowerItem.up + VS + item.down`,
`separator = VS` bumped by `max(arcs - entryDelta, arcs - exitDelta)`
when either delta is below `arcs`. -/
def choiceUpLoop (AR VS : ℚ) (default : Int) (items : List Measure) :
    Nat → List ℚ × ℚ → List ℚ × ℚ
  | 0, st => st
  | i + 1, (seps, u) =>
    let arcs := if (i : Int) = default - 1 then AR * 2 else AR
    let item := pyGetM items i
    let lowerItem := pyGetM items ((i : Int) + 1)
    let entryDelta := lowerItem.up + VS + item.down + item.height
    let exitDelta := lowerItem.height + lowerItem.up + VS + item.down
    let separator :=
      if exitDelta < arcs ∨ entryDelta < arcs then
        VS + max (arcs - entryDelta) (arcs - exitDelta)
      else VS
    choiceUpLoop AR VS default items i
      (pySetQ seps i separator,
       u + lowerItem.up + separator + item.down + item.height)

/-- The Python ints `lo, lo+1, ..., lo+cnt-1` (the value list of
`range(lo, lo+cnt)`). -/
def intRange (lo : Int) (cnt : Nat) : List Int :=
  (List.range cnt).map (fun k => lo + (k : Int))

/-- One iteration of the second `Choice.__init__` loop at loop variable
`i`: `arcs` is `2*AR` when `i == default + 1`,
`entryDelta = upperItem.height + upperItem.down + VS + item.up`,
`exitDelta = upperItem.down + VS + item.up + item.height`, the bumped
separator is written to `separators[i - 1]` and `self.down`
accumulates. -/
def choiceDownStep (AR VS : ℚ) (default : Int) (items : List Measure)
    (st : List ℚ × ℚ) (i : Int) : List ℚ × ℚ :=
  let arcs := if i = default + 1 then AR * 2 else AR
  let item := pyGetM items i
  let upperItem := pyGetM items (i - 1)
  let entryDelta := upperItem.height + upperItem.down + VS + item.up
  let exitDelta := upperItem.down + VS + item.up + item.height
  let separator :=
    if entryDelta < arcs ∨ exitDelta < arcs then
      VS + max (arcs - entryDelta) (arcs - exitDelta)
    else VS
  (pySetQ st.1 (i - 1) separator,
   st.2 + upperItem.down + separator + item.up + item.height)

/-- The second `Choice.__init__` loop (`for i in range(default + 1,
len(items))`): `i` ranges over the Python ints
`default+1, ..., len(items)-1` (which are negative when `default` is,
exercising negative indexing). -/
def choiceDownLoop (AR VS : ℚ) (default : Int) (items : List Measure)
    (st : List ℚ × ℚ) : List ℚ × ℚ :=
  let n : Int := items.length
  (intRange (default + 1) (n - (default + 1)).toNat).foldl
    (choiceDownStep AR VS default items) st

/-- `Choice.__init__`: `assert default < len(items)`, then
`width = AR*4 + max(item.width for item in items)` (`None` on an empty
list, where `max` raises), `separators = [VS] * (len(items) - 1)`
rewritten by the two loops, `self.up += items[0].up`,
`height = items[default].height` (`None` when `default < -len(items)`,
where Python indexing raises), `self.down += items[-1].down`. -/
def choiceInit (AR VS : ℚ) (default : Int) (items : List Measure) :
    Option ChoiceResult :=
  if ¬ default < (items.length : Int) then none
  else match items with
  | [] => none
  | _ =>
    if default < -(items.length : Int) then none
    else
      let width := AR * 4 + maxQ (items.map Measure.width)
      let seps0 : List ℚ := List.replicate (items.length - 1) VS
      let st1 := choiceUpLoop AR VS default items default.toNat (seps0, 0)
      let up := st1.2 + (pyGetM items 0).up
      let height := (pyGetM items default).height
      let st2 := choiceDownLoop AR VS default items (st1.1, 0)
      let down := st2.2 + ((items.getLast?).getD junkM).down
      some ⟨up, height, down, width, st2.1⟩

/-- `Stack.__init__` measurements. -/
def stackInit (AR VS : ℚ) (items : List Measure) : Option Measure :=
  match items with
  | [] => none
  | first :: _ =>
    let width0 :=
      maxQ (items.map (fun it =>
        it.width + (if it.needsSpace then 20 else 0)))
    let width := if 1 < items.length then width0 + AR * 2 else width0
    let last := (items.getLast?).getD junkM
    let lastIdx := items.length - 1
    let height :=
      (List.range items.length).foldl
        (fun h i =>
          let item := pyGetM items i
          let h := h + item.height
          let h := if 0 < i then h + max (AR * 2) (item.up + VS) else h
          if i < lastIdx then h + max (AR * 2) (item.down + VS) else h)
        0
    some { up := first.up, height := height, down := last.down,
           width := width, needsSpace := true }

/-- `OptionalSequence.__init__` measurements (only reached with at least
two items; `__new__` degrades smaller argument lists to `Sequence`). -/
def optionalSequenceInit (AR VS : ℚ) (items : List Measure) :
    Option Measure :=
  match items with
  | [] => none
  | first :: _ =>
    let heightT := (items.map Measure.height).sum
    let st :=
      (List.range items.length).foldl
        (fun (st : ℚ × ℚ × ℚ × ℚ) i =>
          let u := st.1; let d := st.2.1
          let hSoFar := st.2.2.1; let w := st.2.2.2
          let item := pyGetM items i
          let u := max u (max (AR * 2) (item.up + VS) - hSoFar)
          let hSoFar := hSoFar + item.height
          let d := if 0 < i then
              max (heightT + d) (hSoFar + max (AR * 2) (item.down + VS))
                - heightT
            else d
          let itemWidth := item.width + (if item.needsSpace then 10 else 0)
          let w := if i = 0 then w + AR + max itemWidth AR
                   else w + AR * 2 + max itemWidth AR + AR
          (u, d, hSoFar, w))
        (0, first.down, 0, 0)
    some { up := st.1, height := heightT, down := st.2.1,
           width := st.2.2.2, needsSpace := false }

/-- `HorizontalChoice.__init__` measurements (only reached with at least
two items). -/
def horizontalChoiceInit (AR VS : ℚ) (items : List Measure) :
    Option Measure :=
  match items with
  | [] => none
  | [_] => none
  | first :: _ =>
    let allButLast := items.dropLast
    let middles := (items.drop 1).dropLast
    let last := (items.getLast?).getD junkM
    let width :=
      AR + AR * 2 * ((items.length : ℚ) - 1) +
      (items.map (fun x =>
        x.width + (if x.needsSpace then 20 else 0))).sum +
      (if 0 < last.height then AR else 0) + AR
    let upperTrack :=
      max (AR * 2) (max VS (maxQ (allButLast.map Measure.up) + VS))
    let up := max upperTrack last.up
    let lowerTrack :=
      max VS (max
        (if middles.isEmpty then 0
         else maxQ (middles.map (fun x =>
           x.height + max (x.down + VS) (AR * 2))))
        (last.height + last.down + VS))
    let lowerTrack :=
      if first.height < lowerTrack then
        max lowerTrack (first.height + AR * 2)
      else lowerTrack
    some { up := up, height := 0,
           down := max lowerTrack (first.height + first.down),
           width := width, needsSpace := false }

/-- `OneOrMore.__init__` measurements. -/
def oneOrMoreInit (AR VS : ℚ) (item rep : Measure) : Measure :=
  { width := max item.width rep.width + AR * 2,
    height := item.height,
    up := item.up,
    down := max (AR * 2)
      (item.down + VS + rep.up + rep.height + rep.down),
    needsSpace := true }

/-- `Group.__init__` measurements (`boxUp` inlined into `up`). -/
def groupInit (AR VS : ℚ) (item : Measure) (label : Option Measure) :
    Measure :=
  let boxUp := max (item.up + VS) AR
  { width := max (max
      (item.width + (if item.needsSpace then 20 else 0))
      (match label with | some l => l.width | none => 0)) (AR * 2),
    height := item.height,
    up := boxUp + (match label with
                   | some l => l.up + l.height + l.down
                   | none => 0),
    down := max (item.down + VS) AR,
    needsSpace := true }

/-- `MultipleChoice.__init__` measurements (after its two asserts). -/
def multipleChoiceInit (AR VS : ℚ) (default : Int) (type : String)
    (items : List Measure) : Option Measure :=
  if ¬ (0 ≤ default ∧ default < (items.length : Int)) then none
  else if ¬ (type = "any" ∨ type = "all") then none
  else
    let innerWidth := maxQ (items.map Measure.width)
    let first := pyGetM items 0
    let last := (items.getLast?).getD junkM
    let defaultItem := pyGetM items default
    let st :=
      (List.range items.length).foldl
        (fun (st : ℚ × ℚ) i =>
          let item := pyGetM items i
          let minimum :=
            if (i : Int) = default - 1 ∨ (i : Int) = default + 1 then
              10 + AR
            else AR
          if (i : Int) < default then
            (st.1 + max minimum
              (item.height + item.down + VS + (pyGetM items (i + 1)).up),
             st.2)
          else if (i : Int) = default then st
          else
            (st.1,
             st.2 + max minimum
               (item.up + VS + (pyGetM items (i - 1)).down +
                (pyGetM items (i - 1)).height)))
        (first.up, last.down)
    some { width := 30 + AR + innerWidth + AR + 20,
           height := defaultItem.height,
           up := st.1,
           down := st.2 - defaultItem.height,
           needsSpace := true }

mutual

/-- The measurements a constructed node carries, computed bottom-up from
its children exactly as the per-kind `__init__` bodies do.  `none` marks
a construction Python would not complete (empty composite, out-of-range
`Choice` default) — and, as the one modelling limit, the
`AlternatingSequence` measurements, whose `sin(45°)` arithmetic leaves
`ℚ`; no claim depends on them. -/
def measureOf (p : Params) : Tree → Option Measure
  | .terminal text _ _ _ =>
      some ⟨11, 0, 11, (text.length : ℚ) * p.charWidth + 20, true⟩
  | .nonTerminal text _ _ _ =>
      some ⟨11, 0, 11, (text.length : ℚ) * p.charWidth + 20, true⟩
  | .comment text _ _ _ =>
      some ⟨8, 0, 8, (text.length : ℚ) * p.commentCharWidth + 10, true⟩
  | .expression text _ _ _ =>
      some ⟨11, 0, 11, (text.length : ℚ) * p.charWidth + 40, true⟩
  | .skip => some ⟨0, 0, 0, 0, false⟩
  | .start _ label =>
      some ⟨10, 0, 10,
        (if pyTruthyStr label then
          max 20 (((label.getD "").length : ℚ) * p.charWidth + 10)
         else 20), false⟩
  | .end_ _ => some ⟨10, 0, 10, 20, false⟩
  | .arrow _ => some ⟨10, 0, 10, 20, false⟩
  | .sequence items => (measureList p items).bind sequenceInit
  | .stack items => (measureList p items).bind (stackInit p.AR p.VS)
  | .optionalSequence items =>
      (measureList p items).bind (optionalSequenceInit p.AR p.VS)
  | .alternatingSequence _ => none
  | .choice default items =>
      (measureList p items).bind fun ms =>
        (choiceInit p.AR p.VS default ms).map fun c =>
          ⟨c.up, c.height, c.down, c.width, false⟩
  | .multipleChoice default type items =>
      (measureList p items).bind
        (multipleChoiceInit p.AR p.VS default type)
  | .horizontalChoice items =>
      (measureList p items).bind (horizontalChoiceInit p.AR p.VS)
  | .oneOrMore item rep =>
      (measureOf p item).bind fun im =>
        (measureOf p rep).map fun rm => oneOrMoreInit p.AR p.VS im rm
  | .group item label =>
      (measureOf p item).bind fun im =>
        match label with
        | none => some (groupInit p.AR p.VS im none)
        | some l => (measureOf p l).map fun lm =>
            groupInit p.AR p.VS im (some lm)
  | .diagram items => (measureList p items).bind diagramInit

/-- Children measurements, left to right. -/
def measureList (p : Params) : List Tree → Option (List Measure)
  | [] => some []
  | t :: ts =>
      (measureOf p t).bind fun m =>
        (measureList p ts).map fun ms => m :: ms

end

/-- `Diagram.format(padding_top=20, ...)`: padding resolution
(`padding_right = padding_top` when absent, `padding_bottom =
padding_top`, `padding_left = padding_right`) and the root `<svg>`
`width` attribute `str(self.width + padding_left + padding_right)`,
returned as the numeric value. -/
def diagramFormatWidthAttr (m : Measure) (pt : ℚ := 20)
    (pr pb pl : Option ℚ := none) : ℚ :=
  let pr' := pr.getD pt
  let _pb' := pb.getD pt
  let pl' := pl.getD pr'
  m.width + pl' + pr'

/-! ## The standalone SVG writer (§4.5)

`Diagram.write_standalone(write, css)` mutates the diagram's `attrs`
dictionary and `children` list, writes, and rolls the mutations back.
The model captures exactly that state transformation; `write_svg` only
reads the tree (its text output carries no state and is not modelled),
and the non-style children's contents are irrelevant to the claim, so
they are abstracted to tags. -/

/-- A child of the root `<svg>` node: the transient `Style` element or
any other formatted child (whose contents `write_standalone` never
touches). -/
inductive RootChild where
  | styleC (css : String)
  | otherC (n : Nat)
deriving DecidableEq, Repr

/-- The mutable state of a `Diagram` that `write_standalone` touches:
the `attrs` dictionary (insertion-ordered, unique keys), the `children`
list and the `formatted` flag. -/
structure DiagramState where
  attrs : List (String × String)
  children : List RootChild
  formatted : Bool
deriving DecidableEq, Repr

/-- `self.attrs[k] = v` on a Python dict: update in place when the key
exists, append otherwise. -/
def pySetAttr (attrs : List (String × String)) (k v : String) :
    List (String × String) :=
  match attrs with
  | [] => [(k, v)]
  | (k', v') :: rest =>
      if k' = k then (k, v) :: rest else (k', v') :: pySetAttr rest k v

/-- `del self.attrs[k]`: removes the (unique) binding of `k`.  (Python
raises `KeyError` when the key is absent; both `del`s in
`write_standalone` follow the assignments that created the keys, so they
always find them.) -/
def pyDelAttr (attrs : List (String × String)) (k : String) :
    List (String × String) :=
  attrs.filter (fun p => p.1 ≠ k)

/-- `attrs.get(k)`-style lookup, for stating key absence. -/
def lookupAttr (attrs : List (String × String)) (k : String) :
    Option String :=
  match attrs with
  | [] => none
  | (k', v) :: rest => if k' = k then some v else lookupAttr rest k

/-- `Diagram.write_standalone(write, css)` as a state transformation:
format first if not yet formatted (`fmt` abstracts `Diagram.format`,
which the claim's "formatted diagram" hypothesis makes irrelevant),
substitute the bundled default stylesheet for a missing `css`, append
`Style(css)` to the children, set the two XML namespace attributes,
write (read-only), then `self.children.pop()` and delete the two
attributes. -/
def writeStandalone (fmt : DiagramState → DiagramState)
    (s : DiagramState) (css : Option String) (defaultCss : String) :
    DiagramState :=
  let s1 := if ¬ s.formatted then fmt s else s
  let cssV := css.getD defaultCss
  let s2 := { s1 with children := s1.children ++ [RootChild.styleC cssV] }
  let a3 :=
    pySetAttr (pySetAttr s2.attrs "xmlns" "http://www.w3.org/2000/svg")
      "xmlns:xlink" "http://www.w3.org/1999/xlink"
  let s3 := { s2 with attrs := a3 }
  let s4 := { s3 with children := s3.children.dropLast }
  { s4 with attrs := pyDelAttr (pyDelAttr s4.attrs "xmlns") "xmlns:xlink" }

/-! ## The text-diagram engine (§4.3)

`TextDiagram.__init__` asserts its contract (entry and exit no larger
than the number of lines, all lines of equal length), so every
`TextDiagram` object in a running program satisfies it.  The model makes
the constructor a checked builder `mkTD` into the subtype `TD` of raw
grids satisfying `TDOk`; an assertion failure is `AssertionError`.  The
glyph table (`TextDiagram.parts`, a class attribute set by
`set_formatting`) is threaded explicitly as a total function
`parts : String → String`, and `internal_alignment` as `align`. -/

/-- The data of a `TextDiagram`: entry line, exit line, and the grid
lines (`entry`/`exit` are Python ints — the constructor does not bound
them below). -/
structure TDRaw where
  entry : Int
  exit : Int
  lines : List String
deriving DecidableEq, Repr

/-- `self.height = len(lines)`. -/
def TDRaw.height (td : TDRaw) : Nat := td.lines.length

/-- `self.width = len(lines[0]) if len(lines) > 0 else 0`. -/
def TDRaw.width (td : TDRaw) : Nat :=
  match td.lines with
  | [] => 0
  | l :: _ => l.length

/-- The contract `TextDiagram.__init__` asserts: entry and exit within
the diagram vertically, and rectangular data. -/
def TDOk (td : TDRaw) : Prop :=
  td.entry ≤ (td.height : Int) ∧ td.exit ≤ (td.height : Int) ∧
    ∀ l ∈ td.lines, l.length = td.width

instance (td : TDRaw) : Decidable (TDOk td) := by
  unfold TDOk; infer_instance

/-- A successfully constructed `TextDiagram`. -/
def TD : Type := { td : TDRaw // TDOk td }

instance : DecidableEq TD := Subtype.instDecidableEq

/-- Entry line of a constructed text diagram. -/
def TD.entry (a : TD) : Int := a.val.entry

/-- Exit line of a constructed text diagram. -/
def TD.exit (a : TD) : Int := a.val.exit

/-- Grid lines of a constructed text diagram. -/
def TD.lines (a : TD) : List String := a.val.lines

/-- Height in lines. -/
def TD.height (a : TD) : Nat := a.val.height

/-- Width in character cells. -/
def TD.width (a : TD) : Nat := a.val.width

/-- `TextDiagram(entry, exit, lines)`: the asserting constructor.  (The
Python constructor copies `lines`; lists are immutable here.) -/
def mkTD (entry exit : Int) (lines : List String) : Except PyExn TD :=
  if h : TDOk ⟨entry, exit, lines⟩ then .ok ⟨⟨entry, exit, lines⟩, h⟩
  else .error .assertionError

/-- Python `s * n` for strings (empty for a non-positive count). -/
def pyRepeatStr (s : String) (n : Int) : String :=
  String.join (List.replicate n.toNat s)

/-- Python `[x] * n` (empty for a non-positive count). -/
def pyRepeatList {α : Type} (x : α) (n : Int) : List α :=
  List.replicate n.toNat x

/-- Python `lines[i]` on a list of strings, with negative-index
wrapping.  Out-of-range access raises `IndexError` in Python; the `""`
default is never reached on the rectangular inputs of the proofs. -/
def pyGetS (l : List String) (i : Int) : String :=
  if 0 ≤ i then l.getD i.toNat ""
  else l.getD (l.length - (-i).toNat) ""

/-- Python `lines[i] = v`, with negative-index wrapping (`lefts[-1]` in
`_rectish`).  Python raises `IndexError` out of range; the model leaves
the list unchanged there (never reached in the verified uses). -/
def pySetS (l : List String) (i : Int) (v : String) : List String :=
  if 0 ≤ i then l.set i.toNat v
  else l.set (l.length - (-i).toNat) v

/-- `TextDiagram._padR(string, width, pad)`:
`assert (width - len(string)) % len(pad) == 0`, then
`string + pad * (width - len(string) // len(pad))` (the code divides
only `len(string)` by `len(pad)` — with one-character pads both
readings agree). -/
def padR (s : String) (width : Int) (pad : String) :
    Except PyExn String :=
  if pad.length = 0 then .error .zeroDivisionError
  else if (width - s.length).emod pad.length ≠ 0 then
    .error .assertionError
  else .ok (s ++ pyRepeatStr pad (width - (s.length / pad.length : Nat)))

/-- `TextDiagram._padL(string, width, pad)`. -/
def padL (s : String) (width : Int) (pad : String) :
    Except PyExn String :=
  if pad.length = 0 then .error .zeroDivisionError
  else if (width - s.length).emod pad.length ≠ 0 then
    .error .assertionError
  else .ok (pyRepeatStr pad (width - (s.length / pad.length : Nat)) ++ s)

/-- `TextDiagram._enclose_lines(lines, lefts, rights)`: asserts the three
lists have the same length, then joins them line by line. -/
def encloseLines (lines lefts rights : List String) :
    Except PyExn (List String) :=
  if lines.length ≠ lefts.length then .error .assertionError
  else if lines.length ≠ rights.length then .error .assertionError
  else .ok ((lines.zip (lefts.zip rights)).map
    (fun p => p.2.1 ++ p.1 ++ p.2.2))

/-- `TextDiagram._gaps(outer_width, inner_width, internal_alignment)`
(`diff // 2` is Python floor division). -/
def gapsTD (outerWidth innerWidth : Int) (align : String) : Int × Int :=
  let diff := outerWidth - innerWidth
  if align = "left" then (0, diff)
  else if align = "right" then (diff, 0)
  else (diff.fdiv 2, diff - diff.fdiv 2)

/-- `TextDiagram.copy()` (re-runs the asserting constructor). -/
def TD.copy (a : TD) : Except PyExn TD := mkTD a.entry a.exit a.lines

/-- `TextDiagram.alter(entry, exit, lines)`: `new_entry = entry or
self.entry` — Python `or`, so a zero entry (or empty lines list) falls
back to the old value. -/
def TD.alter (a : TD) (e x : Option Int) (ls : Option (List String)) :
    Except PyExn TD :=
  let ne := match e with
            | none => a.entry
            | some v => if v = 0 then a.entry else v
  let nx := match x with
            | none => a.exit
            | some v => if v = 0 then a.exit else v
  let nl := match ls with
            | none => a.lines
            | some [] => a.lines
            | some l => l
  mkTD ne nx nl

/-- `TextDiagram.expand(left, right, top, bottom)`: four sign asserts,
identity when all are zero, otherwise pad each existing row with the
`line` glyph on the entry/exit rows and spaces elsewhere, and add blank
rows above and below. -/
def TD.expand (parts : String → String) (a : TD)
    (left right top bottom : Int) : Except PyExn TD :=
  if ¬ 0 ≤ left then .error .assertionError
  else if ¬ 0 ≤ right then .error .assertionError
  else if ¬ 0 ≤ top then .error .assertionError
  else if ¬ 0 ≤ bottom then .error .assertionError
  else if left + right + top + bottom = 0 then a.copy
  else
    let line := parts "line"
    let blank := pyRepeatStr " " (a.width + left + right)
    let body := (List.range a.height).map (fun i =>
      let leftExpansion := if (i : Int) = a.entry then line else " "
      let rightExpansion := if (i : Int) = a.exit then line else " "
      pyRepeatStr leftExpansion left ++ pyGetS a.lines i ++
        pyRepeatStr rightExpansion right)
    mkTD (a.entry + top) (a.exit + top)
      (pyRepeatList blank top ++ body ++ pyRepeatList blank bottom)

/-- `TextDiagram.center(width, pad)`: asserts the new width is no
smaller, identity at equal width, otherwise splits the padding
left/right (floor-half left) and encloses. -/
def TD.center (a : TD) (width : Int) (pad : String) :
    Except PyExn TD :=
  if ¬ (a.width : Int) ≤ width then .error .assertionError
  else if width = a.width then a.copy
  else
    let totalPadding := width - a.width
    let leftWidth := totalPadding.fdiv 2
    let lefts := pyRepeatList (pyRepeatStr pad leftWidth) a.height
    let rights :=
      pyRepeatList (pyRepeatStr pad (totalPadding - leftWidth)) a.height
    match encloseLines a.lines lefts rights with
    | .error e => .error e
    | .ok ls => mkTD a.entry a.exit ls

/-- `TextDiagram.append_right(item, charsBetween)`: aligns the left
grid's exit with the right grid's entry, pads both to the common height
with `expand`, and joins row by row, inserting `charsBetween` only on
the join row (spaces of the same width elsewhere). -/
def appendRight (parts : String → String) (a b : TD)
    (charsBetween : String) : Except PyExn TD := do
  let joinLine := max a.exit b.entry
  let newHeight :=
    max ((a.height : Int) - a.exit) ((b.height : Int) - b.entry) +
      joinLine
  let leftTopAdd := joinLine - a.exit
  let leftBotAdd := newHeight - a.height - leftTopAdd
  let rightTopAdd := joinLine - b.entry
  let rightBotAdd := newHeight - b.height - rightTopAdd
  let left ← TD.expand parts a 0 0 leftTopAdd leftBotAdd
  let right ← TD.expand parts b 0 0 rightTopAdd rightBotAdd
  let newLines := (List.range newHeight.toNat).map (fun (i : Nat) =>
    let sep := if (i : Int) ≠ joinLine then
        pyRepeatStr " " charsBetween.length
      else charsBetween
    pyGetS left.lines (i : Int) ++ sep ++ pyGetS right.lines (i : Int))
  mkTD (a.entry + leftTopAdd) (b.exit + rightTopAdd) newLines

/-- `TextDiagram.append_below(item, lines_between, move_entry,
move_exit)`: centers both grids to the common width, right-pads the
in-between lines, stacks, and optionally relocates entry/exit to the
appended grid's (offset by the upper grid's height plus the in-between
line count). -/
def appendBelow (a b : TD) (linesBetween : List String)
    (moveEntry moveExit : Bool) : Except PyExn TD := do
  let newWidth : Int := max a.width b.width
  let ca ← TD.center a newWidth " "
  let between ← linesBetween.mapM (fun line => padR line newWidth " ")
  let cb ← TD.center b newWidth " "
  let newLines := ca.lines ++ between ++ cb.lines
  let newEntry :=
    if moveEntry then (a.height : Int) + linesBetween.length + b.entry
    else a.entry
  let newExit :=
    if moveExit then (a.height : Int) + linesBetween.length + b.exit
    else a.exit
  mkTD newEntry newExit newLines

/-- `TextDiagram._max_width` restricted to three strings (as `_rectish`
uses it). -/
def maxWidth3 (x y z : String) : Nat :=
  max x.length (max y.length z.length)

/-- The argument of `TextDiagram._rectish`: a plain string label or an
already-formatted grid (`isinstance(data, TextDiagram)`). -/
inductive RectData where
  | strD (s : String)
  | tdD (t : TD)

/-- `TextDiagram._rectish(rect_type, data, dashed)`: draw a box around a
label or nested grid with the given glyph family, marking entry/exit
with the `cross` glyph (for nested grids) and a final entry/exit
perimeter of `line` glyphs. -/
def rectish (parts : String → String) (rectType : String)
    (data : RectData) (dashed : Bool) : Except PyExn TD := do
  let lineType := if dashed then "_dashed" else ""
  let topLeft0 := parts (rectType ++ "_top_left")
  let ctrLeft0 := parts (rectType ++ "_left" ++ lineType)
  let botLeft0 := parts (rectType ++ "_bot_left")
  let topRight0 := parts (rectType ++ "_top_right")
  let ctrRight0 := parts (rectType ++ "_right" ++ lineType)
  let botRight0 := parts (rectType ++ "_bot_right")
  let topHoriz := parts (rectType ++ "_top" ++ lineType)
  let botHoriz := parts (rectType ++ "_bot" ++ lineType)
  let line := parts "line"
  let cross := parts "cross"
  let isAngle := rectType = "angle_rect"
  let topLeft := if isAngle then " " ++ topLeft0 else topLeft0
  let ctrLeft := if isAngle then ctrLeft0 ++ " " else ctrLeft0
  let botLeft := if isAngle then " " ++ botLeft0 else botLeft0
  let topRight := if isAngle then topRight0 ++ " " else topRight0
  let ctrRight := if isAngle then " " ++ ctrRight0 else ctrRight0
  let botRight := if isAngle then botRight0 ++ " " else botRight0
  let itemTD ← match data with
               | .tdD t => pure t
               | .strD s => mkTD 0 0 [s]
  let middle ← match data with
               | .tdD t => do
                   let e ← TD.expand parts t 1 1 0 0
                   pure e.lines
               | .strD _ => pure (itemTD.lines.map (fun l => " " ++ l ++ " "))
  let lines0 :=
    [pyRepeatStr topHoriz (itemTD.width + 2)] ++ middle ++
      [pyRepeatStr botHoriz (itemTD.width + 2)]
  let entry := itemTD.entry + 1
  let exit := itemTD.exit + 1
  let leftMaxWidth := maxWidth3 topLeft ctrLeft botLeft
  let ctrLeftPad ← padR ctrLeft leftMaxWidth " "
  let topLeftPad ← padR topLeft leftMaxWidth topHoriz
  let botLeftPad ← padR botLeft leftMaxWidth botHoriz
  let lefts0 := pyRepeatList ctrLeftPad lines0.length
  let lefts1 := pySetS (pySetS lefts0 0 topLeftPad) (-1) botLeftPad
  let lefts := match data with
               | .tdD _ => pySetS lefts1 entry cross
               | .strD _ => lefts1
  let rightMaxWidth := maxWidth3 topRight ctrRight botRight
  let ctrRightPad ← padL ctrRight rightMaxWidth " "
  let topRightPad ← padL topRight rightMaxWidth topHoriz
  let botRightPad ← padL botRight rightMaxWidth botHoriz
  let rights0 := pyRepeatList ctrRightPad lines0.length
  let rights1 := pySetS (pySetS rights0 0 topRightPad) (-1) botRightPad
  let rights := match data with
                | .tdD _ => pySetS rights1 exit cross
                | .strD _ => rights1
  let lines1 ← encloseLines lines0 lefts rights
  let lefts2 := pySetS (pyRepeatList " " lines1.length) entry line
  let rights2 := pySetS (pyRepeatList " " lines1.length) exit line
  let lines2 ← encloseLines lines1 lefts2 rights2
  mkTD entry exit lines2

/-- `TextDiagram.rect(item, dashed)`. -/
def rectTD (parts : String → String) (data : RectData)
    (dashed : Bool := false) : Except PyExn TD :=
  rectish parts "rect" data dashed

/-- `TextDiagram.round_rect(item, dashed)`. -/
def roundRectTD (parts : String → String) (data : RectData)
    (dashed : Bool := false) : Except PyExn TD :=
  rectish parts "round_rect" data dashed

/-- `TextDiagram.angle_rect(item, dashed)`. -/
def angleRectTD (parts : String → String) (data : RectData)
    (dashed : Bool := false) : Except PyExn TD :=
  rectish parts "angle_rect" data dashed

/-- `max(...)` over a non-empty list of naturals (callers guard the
`ValueError` of Python's empty `max`). -/
def maxNat : List Nat → Nat
  | [] => 0
  | x :: xs => xs.foldl max x

/-- `max(...)` over a non-empty list of ints (callers guard empty). -/
def maxInt : List Int → Int
  | [] => 0
  | x :: xs => xs.foldl max x

/-- `for i in range(lo, hi): l[i] = v` on a list of strings. -/
def pySetRange (l : List String) (lo hi : Int) (v : String) :
    List String :=
  ((List.range (hi - lo).toNat).map (fun k => lo + k)).foldl
    (fun acc i => pySetS acc i v) l

/-- `Start.text_diagram()`. -/
def startTD (parts : String → String) (type : String)
    (label : Option String) : Except PyExn TD := do
  let cross := parts "cross"
  let line := parts "line"
  let teeRight := parts "tee_right"
  let ball := parts "ball"
  let start0 :=
    if type = "simple" then teeRight ++ cross ++ line
    else if type = "sql" then ball ++ line
    else teeRight ++ line
  let labelTD0 ← mkTD 0 0 []
  let state ←
    if pyTruthyStr label then do
      let lt ← mkTD 0 0 [label.getD ""]
      let s ← padR start0 lt.width line
      pure (lt, s)
    else pure (labelTD0, start0)
  let startTD1 ← mkTD 0 0 [state.2]
  appendBelow state.1 startTD1 [] true true

/-- `End.text_diagram()`. -/
def endTD (parts : String → String) (type : String) :
    Except PyExn TD :=
  let cross := parts "cross"
  let line := parts "line"
  let teeLeft := parts "tee_left"
  let arrowRight := parts "arrow_right"
  let e :=
    if type = "simple" then line ++ cross ++ teeLeft
    else if type = "sql" then line ++ arrowRight
    else line ++ teeLeft
  mkTD 0 0 [e]

/-- `Arrow.text_diagram()`. -/
def arrowTD (parts : String → String) (direction : String) :
    Except PyExn TD :=
  let line := parts "line"
  let arrowRight := parts "arrow_right"
  let arrowLeft := parts "arrow_left"
  let a :=
    if direction = "right" then line ++ arrowRight ++ line
    else if direction = "left" then line ++ arrowLeft ++ line
    else line ++ line ++ line
  mkTD 0 0 [a]

/-- The `Sequence.text_diagram` / `Diagram.text_diagram` loop body over
already-rendered children (`needs_space` children are expanded by one
cell on each side, then appended to the right with the `separator`
glyph). -/
def seqTDFold (parts : String → String) (init : TD)
    (pairs : List (Bool × TD)) : Except PyExn TD :=
  let separator := parts "separator"
  pairs.foldlM
    (fun acc p => do
      let itemTD ← if p.1 then TD.expand parts p.2 1 1 0 0 else pure p.2
      appendRight parts acc itemTD separator)
    init

/-- `Stack.text_diagram()` over the rendered children (`ValueError` on an
empty stack, from `max([...])`). -/
def stackTDItems (parts : String → String) (align : String)
    (itemsTD : List TD) : Except PyExn TD := do
  let cornerBotLeft := parts "corner_bot_left"
  let cornerBotRight := parts "corner_bot_right"
  let cornerTopLeft := parts "corner_top_left"
  let cornerTopRight := parts "corner_top_right"
  let line := parts "line"
  let lineVertical := parts "line_vertical"
  match itemsTD with
  | [] => .error .valueError
  | _ => do
    let maxWidth : Int := maxNat (itemsTD.map TD.width)
    let separatorTD ← mkTD 0 0 [pyRepeatStr line maxWidth]
    let empty0 ← mkTD 0 0 []
    let n := itemsTD.length
    let st ← itemsTD.enum.foldlM
      (fun (st : List String × List String × TD) p => do
        let (ll, rl, dtd) := st
        let (itemNum, itemTD) := p
        let (ll, rl, dtd) ←
          if itemNum = 0 then
            pure (ll ++ [pyRepeatStr line 2] ++
              pyRepeatList (pyRepeatStr " " 2)
                ((itemTD.height : Int) - itemTD.entry - 1),
              rl, dtd)
          else do
            let dtd ← appendBelow dtd separatorTD [] false false
            pure (ll ++ [cornerTopLeft ++ line] ++
              pyRepeatList (lineVertical ++ " ") itemTD.entry ++
              [cornerBotLeft ++ line] ++
              pyRepeatList (pyRepeatStr " " 2)
                ((itemTD.height : Int) - itemTD.entry - 1),
              rl ++ pyRepeatList (pyRepeatStr " " 2) itemTD.exit, dtd)
        let rl :=
          if itemNum < n - 1 then
            rl ++ [line ++ cornerTopRight] ++
              pyRepeatList (" " ++ lineVertical)
                ((itemTD.height : Int) - itemTD.exit - 1) ++
              [line ++ cornerBotRight]
          else rl ++ [pyRepeatStr line 2]
        let gaps := gapsTD maxWidth itemTD.width align
        let itemTD ← TD.expand parts itemTD gaps.1 gaps.2 0 0
        let dtd ←
          if itemNum = 0 then pure itemTD
          else appendBelow dtd itemTD [] false false
        pure (ll, rl, dtd))
      ([], [], empty0)
    let leftTD ← mkTD 0 0 st.1
    let dtd ← appendRight parts leftTD st.2.2 ""
    let rightTD ← mkTD 0 ((st.2.1.length : Int) - 1) st.2.1
    appendRight parts dtd rightTD ""

/-- `Choice.text_diagram()` over the rendered children (each first
expanded by one cell on either side, as the collection loop does), also
reused by `MultipleChoice.text_diagram`. -/
def choiceTDItems (parts : String → String) (align : String)
    (dflt : Int) (itemsTDRaw : List TD) : Except PyExn TD := do
  let cross := parts "cross"
  let line := parts "line"
  let lineVertical := parts "line_vertical"
  let roundCornerBotLeft := parts "round_corner_bot_left"
  let roundCornerBotRight := parts "round_corner_bot_right"
  let roundCornerTopLeft := parts "round_corner_top_left"
  let roundCornerTopRight := parts "round_corner_top_right"
  let itemsTD ← itemsTDRaw.mapM (fun t => TD.expand parts t 1 1 0 0)
  match itemsTD with
  | [] => .error .valueError
  | _ => do
    let maxItemWidth : Int := maxNat (itemsTD.map TD.width)
    let n := itemsTD.length
    let empty0 ← mkTD 0 0 []
    itemsTD.enum.foldlM
      (fun dtd p => do
        let (itemNum, itemTD0) := p
        let gaps := gapsTD maxItemWidth itemTD0.width align
        let itemTD ← TD.expand parts itemTD0 gaps.1 gaps.2 0 0
        let hasSeparator := true
        let ll := pyRepeatList lineVertical (itemTD.height : Int)
        let rl := pyRepeatList lineVertical (itemTD.height : Int)
        let moveEntry := false
        let moveExit := false
        let (hasSeparator, ll, rl) :=
          if (itemNum : Int) ≤ dflt then
            let ll := pySetS ll itemTD.entry roundCornerTopLeft
            let rl := pySetS rl itemTD.exit roundCornerTopRight
            if itemNum = 0 then
              (false, pySetRange ll 0 itemTD.entry " ",
               pySetRange rl 0 itemTD.exit " ")
            else (hasSeparator, ll, rl)
          else (hasSeparator, ll, rl)
        let (hasSeparator, ll, rl) :=
          if dflt ≤ (itemNum : Int) then
            let ll := pySetS ll itemTD.entry roundCornerBotLeft
            let rl := pySetS rl itemTD.exit roundCornerBotRight
            let hasSeparator := if itemNum = 0 then false else hasSeparator
            if itemNum = n - 1 then
              (hasSeparator,
               pySetRange ll (itemTD.entry + 1) (itemTD.height : Int) " ",
               pySetRange rl (itemTD.exit + 1) (itemTD.height : Int) " ")
            else (hasSeparator, ll, rl)
          else (hasSeparator, ll, rl)
        let (moveEntry, moveExit, ll, rl) :=
          if (itemNum : Int) = dflt then
            let ll := pySetS ll itemTD.entry cross
            let rl := pySetS rl itemTD.exit cross
            if itemNum = 0 ∧ itemNum = n - 1 then
              (true, true, pySetS ll itemTD.entry line,
               pySetS rl itemTD.exit line)
            else if itemNum = 0 then
              (true, true, pySetS ll itemTD.entry roundCornerTopRight,
               pySetS rl itemTD.exit roundCornerTopLeft)
            else if itemNum = n - 1 then
              (true, true, pySetS ll itemTD.entry roundCornerBotRight,
               pySetS rl itemTD.exit roundCornerBotLeft)
            else (true, true, ll, rl)
          else (moveEntry, moveExit, ll, rl)
        let leftJointTD ← mkTD itemTD.entry itemTD.entry ll
        let rightJointTD ← mkTD itemTD.exit itemTD.exit rl
        let t1 ← appendRight parts leftJointTD itemTD ""
        let itemTD2 ← appendRight parts t1 rightJointTD ""
        let separator :=
          if hasSeparator then
            [lineVertical ++
             pyRepeatStr " " ((max dtd.width itemTD2.width : Int) - 2) ++
             lineVertical]
          else []
        appendBelow dtd itemTD2 separator moveEntry moveExit)
      empty0

/-- `OptionalSequence.text_diagram()` over the rendered children
(`ValueError` from the empty `max` with fewer than two items — such
nodes cannot arise, `__new__` degrades them to `Sequence`). -/
def optionalSequenceTDItems (parts : String → String)
    (itemsTD : List TD) : Except PyExn TD := do
  let line := parts "line"
  let lineVertical := parts "line_vertical"
  let roundCornerBotLeft := parts "round_corner_bot_left"
  let roundCornerBotRight := parts "round_corner_bot_right"
  let roundCornerTopLeft := parts "round_corner_top_left"
  let roundCornerTopRight := parts "round_corner_top_right"
  match itemsTD with
  | [] => .error .valueError
  | [_] => .error .valueError
  | _ => do
    let diagramEntry := maxInt (itemsTD.map TD.entry)
    let soilHeight := maxInt (itemsTD.dropLast.map TD.entry)
    let topToSOIL := diagramEntry - soilHeight
    let lines0 :=
      pyRepeatList (pyRepeatStr " " 2) topToSOIL ++
      [roundCornerTopLeft ++ line] ++
      pyRepeatList (lineVertical ++ " ") soilHeight ++
      [roundCornerBotRight ++ line]
    let dtd0 ← mkTD ((lines0.length : Int) - 1) ((lines0.length : Int) - 1)
      lines0
    let n := itemsTD.length
    itemsTD.enum.foldlM
      (fun dtd p => do
        let (itemNum, itemTD) := p
        let dtd ←
          if 0 < itemNum then do
            let lines :=
              pyRepeatList (pyRepeatStr " " 2) topToSOIL ++
              [pyRepeatStr line 2] ++
              pyRepeatList (pyRepeatStr " " 2)
                (dtd.exit - topToSOIL - 1) ++
              [line ++ roundCornerTopRight] ++
              pyRepeatList (" " ++ lineVertical)
                ((itemTD.height : Int) - itemTD.entry - 1) ++
              [" " ++ roundCornerBotLeft]
            let skipDownTD ← mkTD dtd.exit dtd.exit lines
            let dtd ← appendRight parts dtd skipDownTD ""
            let lineToNextItem := if itemNum < n - 1 then line else " "
            let lines2 :=
              pyRepeatList (pyRepeatStr " " 2) topToSOIL ++
              [line ++ roundCornerTopRight ++ lineToNextItem] ++
              pyRepeatList (" " ++ lineVertical ++ " ")
                (dtd.exit - topToSOIL - 1) ++
              [line ++ roundCornerBotLeft ++ line] ++
              pyRepeatList (pyRepeatStr " " 3)
                ((itemTD.height : Int) - itemTD.entry - 1) ++
              [pyRepeatStr line 3]
            let entryTD ← mkTD dtd.exit dtd.exit lines2
            appendRight parts dtd entryTD ""
          else pure dtd
        let partTD0 ← mkTD 0 0 []
        let partTD ←
          if itemNum < n - 1 then do
            let lines :=
              [pyRepeatStr line (itemTD.width : Int)] ++
              pyRepeatList (pyRepeatStr " " (itemTD.width : Int))
                (soilHeight - itemTD.entry)
            let soilSegment ← mkTD 0 0 lines
            appendBelow partTD0 soilSegment [] false false
          else pure partTD0
        let partTD ← appendBelow partTD itemTD [] true true
        let partTD ←
          if 0 < itemNum then do
            let suilSegment ← mkTD 0 0
              [pyRepeatStr line (itemTD.width : Int)]
            appendBelow partTD suilSegment [] false false
          else pure partTD
        let dtd ← appendRight parts dtd partTD ""
        if 0 < itemNum then do
          let skipOverChar := if itemNum < n - 1 then line else " "
          let lines :=
            pyRepeatList (pyRepeatStr " " 2) topToSOIL ++
            [pyRepeatStr skipOverChar 2] ++
            pyRepeatList (pyRepeatStr " " 2)
              (dtd.exit - topToSOIL - 1) ++
            [line ++ roundCornerTopLeft] ++
            pyRepeatList (" " ++ lineVertical)
              ((partTD.height : Int) - partTD.exit - 2) ++
            [line ++ roundCornerBotRight]
          let skipUpTD ← mkTD dtd.exit dtd.exit lines
          appendRight parts dtd skipUpTD ""
        else pure dtd)
      dtd0

/-- `HorizontalChoice.text_diagram()` over the rendered children
(`ValueError` from the empty `max` with fewer than two items — such
nodes cannot arise, `__new__` degrades them to `Sequence`). -/
def horizontalChoiceTDItems (parts : String → String)
    (itemsTD : List TD) : Except PyExn TD := do
  let line := parts "line"
  let lineVertical := parts "line_vertical"
  let roundCornerBotLeft := parts "round_corner_bot_left"
  let roundCornerBotRight := parts "round_corner_bot_right"
  let roundCornerTopLeft := parts "round_corner_top_left"
  let roundCornerTopRight := parts "round_corner_top_right"
  match itemsTD with
  | [] => .error .valueError
  | [_] => .error .valueError
  | _ => do
    let diagramEntry := maxInt (itemsTD.map TD.entry)
    let soilToBaseline := maxInt (itemsTD.dropLast.map TD.entry)
    let topToSOIL := diagramEntry - soilToBaseline
    let baselineToSUIL :=
      maxInt ((itemsTD.drop 1).map (fun t =>
        (t.height : Int) - min t.entry t.exit)) - 1
    let lines0 :=
      pyRepeatList (pyRepeatStr " " 2) topToSOIL ++
      [roundCornerTopLeft ++ line] ++
      pyRepeatList (lineVertical ++ " ") soilToBaseline ++
      [roundCornerBotRight ++ line]
    let dtd0 ← mkTD ((lines0.length : Int) - 1) ((lines0.length : Int) - 1)
      lines0
    let n := itemsTD.length
    itemsTD.enum.foldlM
      (fun dtd p => do
        let (itemNum, itemTD) := p
        let dtd ←
          if 0 < itemNum then do
            let lineToNextItem := if itemNum = n - 1 then " " else line
            let lines :=
              pyRepeatList (pyRepeatStr " " 2) topToSOIL ++
              [roundCornerTopRight ++ lineToNextItem] ++
              pyRepeatList (lineVertical ++ " ") soilToBaseline ++
              [roundCornerBotLeft ++ line] ++
              pyRepeatList (pyRepeatStr " " 2) baselineToSUIL ++
              [pyRepeatStr line 2]
            let entryTD ← mkTD dtd.exit dtd.exit lines
            appendRight parts dtd entryTD ""
          else pure dtd
        let partTD0 ← mkTD 0 0 []
        let partTD ←
          if itemNum < n - 1 then do
            let lines :=
              [pyRepeatStr line (itemTD.width : Int)] ++
              pyRepeatList (pyRepeatStr " " (itemTD.width : Int))
                (soilToBaseline - itemTD.entry)
            let soilSegment ← mkTD 0 0 lines
            appendBelow partTD0 soilSegment [] false false
          else pure partTD0
        let partTD ← appendBelow partTD itemTD [] true true
        let partTD ←
          if 0 < itemNum then do
            let lines :=
              pyRepeatList (pyRepeatStr " " (itemTD.width : Int))
                (baselineToSUIL - ((itemTD.height : Int) - itemTD.entry)
                  + 1) ++
              [pyRepeatStr line (itemTD.width : Int)]
            let suilSegment ← mkTD 0 0 lines
            appendBelow partTD suilSegment [] false false
          else pure partTD
        let dtd ← appendRight parts dtd partTD ""
        if itemNum < n - 1 then do
          let lines :=
            pyRepeatList (pyRepeatStr " " 2) topToSOIL ++
            [pyRepeatStr line 2] ++
            pyRepeatList (pyRepeatStr " " 2)
              (dtd.exit - topToSOIL - 1) ++
            [line ++ roundCornerTopRight] ++
            pyRepeatList (" " ++ lineVertical)
              (baselineToSUIL - (dtd.exit - dtd.entry)) ++
            [(if 0 < itemNum then line else " ") ++ roundCornerBotLeft]
          let entry := diagramEntry + 1 + (dtd.exit - dtd.entry)
          let exitTD ← mkTD entry (diagramEntry + 1) lines
          appendRight parts dtd exitTD ""
        else do
          let lineFromExit := if dtd.exit ≠ dtd.entry then " " else line
          let lines1 :=
            [lineFromExit ++ roundCornerTopLeft] ++
            pyRepeatList (" " ++ lineVertical)
              (dtd.exit - dtd.entry - 1)
          let lines2 :=
            if dtd.exit ≠ dtd.entry then
              lines1 ++ [line ++ roundCornerBotRight]
            else lines1
          let lines3 :=
            lines2 ++
            pyRepeatList (" " ++ lineVertical)
              (baselineToSUIL - (dtd.exit - dtd.entry)) ++
            [line ++ roundCornerBotRight]
          let exitTD ← mkTD (dtd.exit - dtd.entry) 0 lines3
          appendRight parts dtd exitTD "")
      dtd0

/-- `AlternatingSequence.text_diagram()` over the two rendered
children. -/
def alternatingSequenceTDItems (parts : String → String) (align : String)
    (firstTD secondTD : TD) : Except PyExn TD := do
  let crossDiag := parts "cross_diag"
  let cornerBotLeft := parts "round_corner_bot_left"
  let cornerBotRight := parts "round_corner_bot_right"
  let cornerTopLeft := parts "round_corner_top_left"
  let cornerTopRight := parts "round_corner_top_right"
  let line := parts "line"
  let lineVertical := parts "line_vertical"
  let teeLeft := parts "tee_left"
  let teeRight := parts "tee_right"
  let maxWidth : Int := max firstTD.width secondTD.width
  let gapsOuter := gapsTD maxWidth 0 align
  let leftWidth := gapsOuter.1
  let rightWidth := gapsOuter.2
  let gapsFirst := gapsTD firstTD.width 0 align
  let rightSize :=
    if align = "left" then gapsFirst.2 - 1 else gapsFirst.2
  let leftSize :=
    if align = "right" then gapsFirst.1 - 2 else gapsFirst.1
  let dtd ← TD.expand parts firstTD (leftWidth - leftSize)
    (rightWidth - rightSize) 0 0
  let leftLines :=
    pyRepeatList (pyRepeatStr " " 2) dtd.entry ++
    [cornerTopLeft ++ line] ++
    pyRepeatList (lineVertical ++ " ")
      ((dtd.height : Int) - dtd.entry - 1) ++
    [cornerBotLeft ++ line]
  let rightLines :=
    pyRepeatList (pyRepeatStr " " 2) dtd.entry ++
    [line ++ cornerTopRight] ++
    pyRepeatList (" " ++ lineVertical)
      ((dtd.height : Int) - dtd.entry - 1) ++
    [line ++ cornerBotRight]
  let separator :=
    [pyRepeatStr line (leftWidth - 1) ++ cornerTopRight ++ " " ++
       cornerTopLeft ++ pyRepeatStr line (rightWidth - 2),
     pyRepeatStr " " (leftWidth - 1) ++ " " ++ crossDiag ++ " " ++
       pyRepeatStr " " (rightWidth - 2),
     pyRepeatStr line (leftWidth - 1) ++ cornerBotRight ++ " " ++
       cornerBotLeft ++ pyRepeatStr line (rightWidth - 2)]
  let leftLines := leftLines ++ [pyRepeatStr " " 2]
  let rightLines := rightLines ++ [pyRepeatStr " " 2]
  let gapsSecond := gapsTD secondTD.width 0 align
  let rightSize2 :=
    if align = "left" then gapsSecond.2 - 1 else gapsSecond.2
  let leftSize2 :=
    if align = "right" then gapsSecond.1 - 2 else gapsSecond.1
  let secondTDx ← TD.expand parts secondTD (leftWidth - leftSize2)
    (rightWidth - rightSize2) 0 0
  let dtd ← appendBelow dtd secondTDx separator true true
  let leftLines := leftLines ++
    [cornerTopLeft ++ line] ++
    pyRepeatList (lineVertical ++ " ") secondTDx.entry ++
    [cornerBotLeft ++ line]
  let rightLines := rightLines ++
    [line ++ cornerTopRight] ++
    pyRepeatList (" " ++ lineVertical) secondTDx.entry ++
    [line ++ cornerBotRight]
  let anchor : Int := (firstTD.height : Int) + (separator.length / 2 : Nat)
  let dtd ← TD.alter dtd (some anchor) (some anchor) none
  let leftTD ← mkTD anchor anchor leftLines
  let rightTD ← mkTD anchor anchor rightLines
  let dtd ← appendRight parts leftTD dtd ""
  let dtd ← appendRight parts dtd rightTD ""
  let capLeft ← mkTD 1 1 [cornerTopLeft, teeLeft, cornerBotLeft]
  let dtd ← appendRight parts capLeft dtd ""
  let capRight ← mkTD 1 1 [cornerTopRight, teeRight, cornerBotRight]
  appendRight parts dtd capRight ""

/-- `OneOrMore.text_diagram()` over the rendered item and repeat. -/
def oneOrMoreTDItems (parts : String → String) (itemTD0 repTD0 : TD) :
    Except PyExn TD := do
  let line := parts "line"
  let repeatTopLeft := parts "repeat_top_left"
  let repeatLeft := parts "repeat_left"
  let repeatBotLeft := parts "repeat_bot_left"
  let repeatTopRight := parts "repeat_top_right"
  let repeatRight := parts "repeat_right"
  let repeatBotRight := parts "repeat_bot_right"
  let fIRWidth : Int := max itemTD0.width repTD0.width
  let repTD ← TD.expand parts repTD0 0 (fIRWidth - repTD0.width) 0 0
  let itemTD ← TD.expand parts itemTD0 0 (fIRWidth - itemTD0.width) 0 0
  let itemAndRepeatTD ← appendBelow itemTD repTD [] false false
  let leftLines :=
    [repeatTopLeft ++ line] ++
    pyRepeatList (repeatLeft ++ " ")
      (((itemTD.height : Int) - itemTD.entry) + repTD.entry - 1) ++
    [repeatBotLeft ++ line]
  let leftTD ← mkTD 0 0 leftLines
  let leftTD ← appendRight parts leftTD itemAndRepeatTD ""
  let rightLines :=
    [line ++ repeatTopRight] ++
    pyRepeatList (" " ++ repeatRight)
      (((itemTD.height : Int) - itemTD.exit) + repTD.exit - 1) ++
    [line ++ repeatBotRight]
  let rightTD ← mkTD 0 0 rightLines
  appendRight parts leftTD rightTD ""

mutual

/-- `text_diagram()` dispatched over the node kind: the second, parallel
rendering algorithm of §4.3.  `parts` is the glyph table
(`TextDiagram.parts`) and `align` the `internal_alignment` option.  The
per-kind bodies collect the children's grids left to right and feed
the composite builders above, whose bodies follow the Python methods
statement by statement. -/
def textDiagram (parts : String → String) (align : String) :
    Tree → Except PyExn TD
  | .terminal text _ _ _ => roundRectTD parts (.strD text)
  | .nonTerminal text _ _ _ => rectTD parts (.strD text)
  | .expression text _ _ _ => angleRectTD parts (.strD text)
  | .comment text _ _ _ => mkTD 0 0 [text]
  | .skip => mkTD 0 0 [parts "line"]
  | .start type label => startTD parts type label
  | .end_ type => endTD parts type
  | .arrow direction => arrowTD parts direction
  | .sequence items => do
      let tds ← textDiagramList parts align items
      let init ← mkTD 0 0 [""]
      seqTDFold parts init ((items.map Tree.needsSpace).zip tds)
  | .stack items => do
      let tds ← textDiagramList parts align items
      stackTDItems parts align tds
  | .optionalSequence items => do
      let tds ← textDiagramList parts align items
      optionalSequenceTDItems parts tds
  | .alternatingSequence items =>
      match items with
      | a :: b :: _ => do
          let ta ← textDiagram parts align a
          let tb ← textDiagram parts align b
          alternatingSequenceTDItems parts align ta tb
      | _ => .error .indexError
  | .choice dflt items => do
      let tds ← textDiagramList parts align items
      choiceTDItems parts align dflt tds
  | .multipleChoice dflt type items => do
      let anyAll ← rectTD parts
        (.strD (if type = "any" then "1+" else "all"))
      let tds ← textDiagramList parts align items
      let dtd ← choiceTDItems parts align dflt tds
      let repeatTD ← rectTD parts (.strD (parts "multi_repeat"))
      let dtd ← appendRight parts anyAll dtd ""
      appendRight parts dtd repeatTD ""
  | .horizontalChoice items => do
      let tds ← textDiagramList parts align items
      horizontalChoiceTDItems parts tds
  | .oneOrMore item rep => do
      let ti ← textDiagram parts align item
      let tr ← textDiagram parts align rep
      oneOrMoreTDItems parts ti tr
  | .group item label => do
      let ti ← textDiagram parts align item
      let boxed ← roundRectTD parts (.tdD ti) true
      match label with
      | none => pure boxed
      | some l => do
          let tl ← textDiagram parts align l
          let x ← appendBelow tl boxed [] true true
          TD.expand parts x 0 0 1 0
  | .diagram items =>
      match items with
      | [] => .error .indexError
      | first :: rest => do
          let d0 ← textDiagram parts align first
          let tds ← textDiagramList parts align rest
          seqTDFold parts d0 ((rest.map Tree.needsSpace).zip tds)

/-- `[item.text_diagram() for item in items]` (exceptions propagate in
order). -/
def textDiagramList (parts : String → String) (align : String) :
    List Tree → Except PyExn (List TD)
  | [] => .ok []
  | t :: ts => do
      let td ← textDiagram parts align t
      let tds ← textDiagramList parts align ts
      pure (td :: tds)

end

mutual

/-- Canonical well-formed trees: exactly the trees whose `toDict` image
`from_dict` reconstructs unchanged.  Composites have at least one child
(`HorizontalChoice`/`OptionalSequence` at least two, or `__new__` would
have degraded them to `Sequence`; `AlternatingSequence` exactly two),
`Choice`/`MultipleChoice` defaults are in range with a valid type tag,
and a `Diagram`'s stored item list already begins with a `Start` and
ends with an `End` (as `Diagram.__init__` leaves it). -/
def WF : Tree → Bool
  | .terminal _ _ _ _ => true
  | .nonTerminal _ _ _ _ => true
  | .comment _ _ _ _ => true
  | .expression _ _ _ _ => true
  | .skip => true
  | .start _ _ => true
  | .end_ _ => true
  | .arrow _ => true
  | .sequence items => !items.isEmpty && WFList items
  | .stack items => !items.isEmpty && WFList items
  | .optionalSequence items => decide (2 ≤ items.length) && WFList items
  | .alternatingSequence items => items.length == 2 && WFList items
  | .choice default items =>
      decide (0 ≤ default) && decide (default < (items.length : Int)) &&
        WFList items
  | .multipleChoice default type items =>
      decide (0 ≤ default) && decide (default < (items.length : Int)) &&
        (type == "any" || type == "all") && WFList items
  | .horizontalChoice items => decide (2 ≤ items.length) && WFList items
  | .oneOrMore item rep => WF item && WF rep
  | .group item label =>
      WF item && (match label with
                  | none => true
                  | some l => WF l)
  | .diagram items =>
      (match items with
       | [] => false
       | first :: _ => first.isStart) &&
      (match items.getLast? with
       | some t => t.isEnd
       | none => false) && WFList items

/-- `WF` on every member. -/
def WFList : List Tree → Bool
  | [] => true
  | t :: ts => WF t && WFList ts

end

/-- The `element` tags `from_dict` recognises, in dispatch order. -/
def knownElements : List String :=
  ["Diagram", "Start", "End", "Arrow", "Terminal", "NonTerminal",
   "Stack", "Choice", "HorizontalChoice", "OptionalSequence",
   "AlternatingSequence", "MultipleChoice", "Skip", "OneOrMore",
   "ZeroOrMore", "Optional", "Comment", "Sequence", "Group",
   "Expression"]

/-- The spec's `Sequence` width formula (claim C2, for comparison with
the code's `sequenceInit`): sum of the children's widths, plus 20 per
adjacent pair where either side needs space, minus 10 at each end whose
child needs space. -/
def specSeqWidth (items : List Measure) : ℚ :=
  (items.map Measure.width).sum +
    20 * (((items.zip (items.drop 1)).countP
      (fun p => p.1.needsSpace || p.2.needsSpace) : ℕ) : ℚ) -
    (if (items.head?.getD junkM).needsSpace then 10 else 0) -
    (if ((items.getLast?).getD junkM).needsSpace then 10 else 0)

/-- The spec's per-gap `Choice` separator formula (claim C3): `VS` plus
`max(0, arcNeeded - availableGap)` for the gap between branches `j` and
`j+1`, where `arcNeeded` is `2·AR` for a gap adjacent to the default
branch and `AR` otherwise, and `availableGap` is the smaller of the
entry-side and exit-side natural gaps between the two adjacent
branches. -/
def specChoiceSeparator (AR VS : ℚ) (default : Int)
    (items : List Measure) (j : Nat) : ℚ :=
  if (j : Int) < default then
    let item := pyGetM items j
    let lowerItem := pyGetM items ((j : Int) + 1)
    let entryDelta := lowerItem.up + VS + item.down + item.height
    let exitDelta := lowerItem.height + lowerItem.up + VS + item.down
    let arcNeeded := if (j : Int) = default - 1 then 2 * AR else AR
    VS + max 0 (arcNeeded - min entryDelta exitDelta)
  else
    let upperItem := pyGetM items j
    let item := pyGetM items ((j : Int) + 1)
    let entryDelta := upperItem.height + upperItem.down + VS + item.up
    let exitDelta := upperItem.down + VS + item.up + item.height
    let arcNeeded := if (j : Int) = default then 2 * AR else AR
    VS + max 0 (arcNeeded - min entryDelta exitDelta)

/-- Entry and exit are genuine row indices of the grid (the spec's
"row indices within the grid", claim C8). -/
def StrongTD (a : TD) : Prop :=
  0 ≤ a.entry ∧ a.entry < (a.height : Int) ∧
    0 ≤ a.exit ∧ a.exit < (a.height : Int)

instance (a : TD) : Decidable (StrongTD a) := by
  unfold StrongTD; infer_instance

/-- A concrete one-character glyph table used by witnesses. -/
def witnessParts : String → String := fun _ => "-"

/-- A concrete one-line grid used by witnesses. -/
def tdDash : TD := ⟨⟨0, 0, ["-"]⟩, by decide⟩

mutual

/-- The node kinds occurring in a tree, one index (0–17) per `Tree`
constructor; used to state formally that a dictionary "covers each node
kind at least once" (claim C1) through the tree it parses to. -/
def kindsIn : Tree → List Nat
  | .terminal _ _ _ _ => [0]
  | .nonTerminal _ _ _ _ => [1]
  | .comment _ _ _ _ => [2]
  | .expression _ _ _ _ => [3]
  | .skip => [4]
  | .start _ _ => [5]
  | .end_ _ => [6]
  | .arrow _ => [7]
  | .sequence items => 8 :: kindsInList items
  | .stack items => 9 :: kindsInList items
  | .optionalSequence items => 10 :: kindsInList items
  | .alternatingSequence items => 11 :: kindsInList items
  | .choice _ items => 12 :: kindsInList items
  | .multipleChoice _ _ items => 13 :: kindsInList items
  | .horizontalChoice items => 14 :: kindsInList items
  | .oneOrMore item rep => 15 :: (kindsIn item ++ kindsIn rep)
  | .group item label =>
      16 :: (kindsIn item ++ (match label with
                              | none => []
                              | some l => kindsIn l))
  | .diagram items => 17 :: kindsInList items

/-- Union of `kindsIn` over a list of trees. -/
def kindsInList : List Tree → List Nat
  | [] => []
  | t :: ts => kindsIn t ++ kindsInList ts

end

/-- Every one of the 18 node kinds occurs in the tree. -/
def coversAllKinds (t : Tree) : Bool :=
  (List.range 18).all (fun k => (kindsIn t).contains k)

/-- Path probe into a structural dictionary: the `href` entry (if the
key is present) of the last member of the `items` list of the second
member of the root's `items` list — the position of the counterexample's
terminal.  `some none` means "the key is absent there", which
distinguishes `cexDict` from its round-trip image. -/
def probeHref (d : DictVal) : Option (Option DictVal) :=
  match d with
  | .obj kvs =>
    match lookupKV "items" kvs with
    | some (.list l) =>
      match l.get? 1 with
      | some (.obj kvs2) =>
        match lookupKV "items" kvs2 with
        | some (.list l2) =>
          match l2.getLast? with
          | some (.obj kvs3) => some (lookupKV "href" kvs3)
          | _ => none
        | _ => none
      | _ => none
    | _ => none
  | _ => none

/-- The children of the counterexample's inner sequence, excluding the
final terminal: one node of every remaining kind. -/
def cexSeqInit : List Tree :=
  [.stack [.skip],
   .optionalSequence [.skip, .skip],
   .alternatingSequence [.skip, .skip],
   .choice 0 [.skip],
   .multipleChoice 0 "any" [.skip],
   .horizontalChoice [.skip, .skip],
   .oneOrMore .skip .skip,
   .group .skip none,
   .nonTerminal "n" none none "",
   .comment "c" none none "",
   .expression "e" none none "",
   .arrow "right"]

/-- The tree `from_dict` builds from `cexDict`: a diagram covering every
node kind, whose last sequence child is a terminal with `href`/`title`
`None` and `cls` `""` (the defaults `from_dict` fills in). -/
def cexTree : Tree :=
  .diagram [.start "simple" none,
            .sequence (cexSeqInit ++ [.terminal "t" none none ""]),
            .end_ "simple"]

/-- A valid terminal dictionary that is not canonical: the optional
`href`, `title` and `cls` keys are omitted (`from_dict` accepts it via
`data.get(..., None)` / `data.get("cls", "")`). -/
def cexTermDict : DictVal :=
  .obj [("element", .str "Terminal"), ("text", .str "t")]

/-- The counterexample's sequence dictionary: canonical children
followed by the non-canonical terminal dictionary. -/
def cexSeqDict : DictVal :=
  .obj [("element", .str "Sequence"),
        ("items", .list (toDictList cexSeqInit ++ [cexTermDict]))]

/-- A valid structural dictionary covering every node kind whose
round-trip is not the identity: every node is serialised canonically
except the final terminal, which omits its optional keys. -/
def cexDict : DictVal :=
  .obj [("element", .str "Diagram"),
        ("items", .list
          [toDict (.start "simple" none),
           cexSeqDict,
           toDict (.end_ "simple")])]

/-! ## Theorems -/

/-- `allSome` succeeds with a list of the same length. -/
theorem allSome_length :
    ∀ {children : List (Option Tree)} {ts : List Tree},
      allSome children = some ts → ts.length = children.length := by
  intro children
  induction children with
  | nil => intro ts h; simp [allSome] at h; simp [← h]
  | cons c rest ih =>
    intro ts h
    match c with
    | none => simp [allSome] at h
    | some t =>
      unfold allSome at h
      cases hrest : allSome rest with
      | none => rw [hrest] at h; simp at h
      | some ts2 =>
        rw [hrest] at h
        simp only [Option.map_some'] at h
        injection h with h
        subst h
        simp [ih hrest]

/-- C6: `HorizontalChoice(x)` with a single item is exactly
`Sequence(x)`: the smart constructor returns the very `Sequence` node,
so the measurements agree and `to_dict` produces the
`{"element": "Sequence", ...}` shape. -/
theorem horizontal_choice_single_is_sequence :
    (∀ x : Tree, mkHorizontalChoice [some x] = mkSequence [some x]) ∧
    (∀ x : Tree,
      mkHorizontalChoice [some x] = .ok (.sequence [x])) ∧
    (∀ x : Tree,
      (mkHorizontalChoice [some x]).map toDict =
        .ok (.obj [("element", .str "Sequence"),
                   ("items", .list [toDict x])])) ∧
    (∀ (p : Params) (x : Tree),
      (mkHorizontalChoice [some x]).map (measureOf p) =
        (mkSequence [some x]).map (measureOf p)) :=
  ⟨fun _ => rfl, fun _ => rfl, fun _ => rfl, fun _ _ => rfl⟩

/-- C7: `optional(item, skip)` is `Choice(0 if skip else 1, Skip(),
item)`, and `optional(Terminal("x"))` serialises to
`{"element": "Choice", "default": 1, "items": [{"element": "Skip"},
{"element": "Terminal", "text": "x", "href": None, "title": None,
"cls": ""}]}`. -/
theorem optional_is_choice_over_skip :
    (∀ (item : Tree) (skip : Bool),
      optionalD (some item) skip =
        .ok (.choice (if skip then 0 else 1) [.skip, item])) ∧
    (optionalD (some (.terminal "x" none none "")) false).map toDict =
      .ok (.obj [("element", .str "Choice"), ("default", .int 1),
        ("items", .list
          [.obj [("element", .str "Skip")],
           .obj [("element", .str "Terminal"), ("text", .str "x"),
                 ("href", .null), ("title", .null),
                 ("cls", .str "")]])]) :=
  ⟨fun item skip => by cases skip <;> rfl, rfl⟩

/-- C10: a dictionary with no `"element"` key makes `from_dict` return
Python `None` (no node and no error), while a present but unrecognised
`"element"` string raises `ParseException(f"Unknown element: {value}.")`
naming the offending value. -/
theorem from_dict_missing_vs_unknown_element :
    (∀ kvs : List (String × DictVal),
      lookupKV "element" kvs = none → fromDict (.obj kvs) = FD.retNone) ∧
    (∀ (kvs : List (String × DictVal)) (s : String),
      lookupKV "element" kvs = some (.str s) → s ∉ knownElements →
      fromDict (.obj kvs) =
        .exn (.parseException ("Unknown element: " ++ s ++ "."))) := by
  constructor
  · intro kvs h
    unfold fromDict
    rw [h]
  · intro kvs s h hs
    simp only [knownElements, List.mem_cons, not_or,
      List.not_mem_nil] at hs
    obtain ⟨n1, n2, n3, n4, n5, n6, n7, n8, n9, n10, n11, n12, n13,
      n14, n15, n16, n17, n18, n19, n20, -⟩ := hs
    unfold fromDict
    rw [h]
    unfold fromDictCases
    simp only [if_neg n1, if_neg n2, if_neg n3, if_neg n4, if_neg n5,
      if_neg n6, if_neg n7, if_neg n8, if_neg n9, if_neg n10,
      if_neg n11, if_neg n12, if_neg n13, if_neg n14, if_neg n15,
      if_neg n16, if_neg n17, if_neg n18, if_neg n19, if_neg n20]

/-- C10 (witness): the theorem applied at `{"text": "x"}` (no element
key) and at `{"element": "Foo"}` (unknown element). -/
theorem from_dict_missing_vs_unknown_element_witness :
    fromDict (.obj [("text", .str "x")]) = FD.retNone ∧
    fromDict (.obj [("element", .str "Foo")]) =
      .exn (.parseException "Unknown element: Foo.") :=
  ⟨from_dict_missing_vs_unknown_element.1 [("text", .str "x")] rfl,
   from_dict_missing_vs_unknown_element.2 [("element", .str "Foo")]
     "Foo" rfl (by decide)⟩

/-- An absent key stays absent under a later suffix lookup. -/
theorem lookupAttr_append_none {l : List (String × String)} {k : String}
    (h : lookupAttr l k = none) (l2 : List (String × String)) :
    lookupAttr (l ++ l2) k = lookupAttr l2 k := by
  induction l with
  | nil => simp
  | cons p rest ih =>
    simp only [List.cons_append, lookupAttr] at h ⊢
    split at h
    · exact absurd h (by simp)
    · rename_i hne
      rw [if_neg hne]
      exact ih h

/-- Setting an absent key appends the binding. -/
theorem pySetAttr_absent {l : List (String × String)} {k : String}
    (h : lookupAttr l k = none) (v : String) :
    pySetAttr l k v = l ++ [(k, v)] := by
  induction l with
  | nil => simp [pySetAttr]
  | cons p rest ih =>
    obtain ⟨k2, v2⟩ := p
    simp only [lookupAttr] at h
    split at h
    · exact absurd h (by simp)
    · rename_i hne
      simp only [pySetAttr, if_neg hne, List.cons_append,
        List.cons.injEq, true_and]
      exact ih h

/-- `pyDelAttr` distributes over list concatenation. -/
theorem pyDelAttr_append (l1 l2 : List (String × String)) (k : String) :
    pyDelAttr (l1 ++ l2) k = pyDelAttr l1 k ++ pyDelAttr l2 k := by
  simp [pyDelAttr]

/-- Deleting an absent key is the identity. -/
theorem pyDelAttr_of_absent {l : List (String × String)} {k : String}
    (h : lookupAttr l k = none) : pyDelAttr l k = l := by
  induction l with
  | nil => simp [pyDelAttr]
  | cons p rest ih =>
    obtain ⟨k2, v2⟩ := p
    simp only [lookupAttr] at h
    split at h
    · exact absurd h (by simp)
    · rename_i hne
      simp only [pyDelAttr, List.filter_cons]
      rw [if_pos (by simpa using hne)]
      simpa [pyDelAttr] using ih h

/-- C9: on an already-formatted diagram (whose attributes do not carry
XML namespace keys — `format` never sets them), `write_standalone`
returns the state to exactly what it was: the injected `<style>` child
is popped and the two namespace attributes deleted, so subsequent write
calls observe the pre-call tree. -/
theorem write_standalone_restores_state :
    ∀ (fmt : DiagramState → DiagramState) (s : DiagramState)
      (css : Option String) (defaultCss : String),
      s.formatted = true →
      lookupAttr s.attrs "xmlns" = none →
      lookupAttr s.attrs "xmlns:xlink" = none →
      writeStandalone fmt s css defaultCss = s := by
  intro fmt s css dflt hf h1 h2
  obtain ⟨A, ch, fl⟩ := s
  simp only at hf h1 h2
  subst hf
  unfold writeStandalone
  simp only [not_true_eq_false, if_false, DiagramState.mk.injEq]
  refine ⟨?_, ?_, trivial⟩
  · rw [pySetAttr_absent h1]
    rw [pySetAttr_absent
      (by rw [lookupAttr_append_none h2]; simp [lookupAttr])]
    rw [List.append_assoc, pyDelAttr_append, pyDelAttr_of_absent h1]
    have e1 : pyDelAttr
        ([("xmlns", "http://www.w3.org/2000/svg")] ++
         [("xmlns:xlink", "http://www.w3.org/1999/xlink")]) "xmlns" =
        [("xmlns:xlink", "http://www.w3.org/1999/xlink")] := rfl
    rw [e1, pyDelAttr_append, pyDelAttr_of_absent h2]
    have e2 : pyDelAttr
        [("xmlns:xlink", "http://www.w3.org/1999/xlink")]
        "xmlns:xlink" = [] := rfl
    rw [e2]
    simp
  · simp [List.dropLast_concat]

/-- The `Sequence`/`Diagram` measurement fold, closed forms of its
width and height components (the `up`/`down` components ride along in
the state but do not feed back into these two). -/
theorem railFold_spec : ∀ (items : List Measure) (st : ℚ × ℚ × ℚ × ℚ),
    (items.foldl
      (fun (st : ℚ × ℚ × ℚ × ℚ) it =>
        (st.1 + it.width + (if it.needsSpace then 20 else 0),
         max st.2.1 (it.up - st.2.2.1), st.2.2.1 + it.height,
         max (st.2.2.2 - it.height) it.down)) st).1 =
      st.1 + (items.map (fun it =>
        it.width + (if it.needsSpace then 20 else 0))).sum ∧
    (items.foldl
      (fun (st : ℚ × ℚ × ℚ × ℚ) it =>
        (st.1 + it.width + (if it.needsSpace then 20 else 0),
         max st.2.1 (it.up - st.2.2.1), st.2.2.1 + it.height,
         max (st.2.2.2 - it.height) it.down)) st).2.2.1 =
      st.2.2.1 + (items.map Measure.height).sum := by
  intro items
  induction items with
  | nil => intro st; simp
  | cons it rest ih =>
    intro st
    simp only [List.foldl_cons, List.map_cons, List.sum_cons]
    constructor
    · rw [(ih _).1]; ring
    · rw [(ih _).2]; ring

/-- C2 (corrected, counterexample): for the two-terminal sequence
`Sequence(Terminal("a"), Terminal("a"))` (both children needing space)
the code computes width 76 — each needs-space child contributes a
10-unit gap on each side, with only the two outermost trimmed — while
the claim's "20 per adjacent pair, minus 10 at each end" formula yields
56. -/
theorem sequence_width_formula_counterexample :
    (measureOf defaultParams
        (.sequence [.terminal "a" none none "",
                    .terminal "a" none none ""])).map Measure.width =
      some 76 ∧
    (measureList defaultParams
        [.terminal "a" none none "",
         .terminal "a" none none ""]).map specSeqWidth = some 56 ∧
    (76 : ℚ) ≠ 56 := by
  refine ⟨?_, ?_, by norm_num⟩
  · norm_num [measureOf, measureList, sequenceInit, railFold,
      defaultParams, junkM, show "a".length = 1 from rfl]
  · norm_num [measureList, measureOf, specSeqWidth, junkM,
      defaultParams, show "a".length = 1 from rfl]

/-- C2 (amended): a constructed `Sequence`'s width is the sum over the
children of `width + 20` if the child needs space (`width` alone
otherwise), minus 10 at the first (last) end when the first (last)
child itself needs space; its core height is the sum of the children's
heights. -/
theorem sequence_width_height_amended :
    ∀ (p : Params) (items : List Tree) (ms : List Measure) (m : Measure),
      measureList p items = some ms →
      measureOf p (.sequence items) = some m →
      m.width = (ms.map (fun it =>
          it.width + (if it.needsSpace then 20 else 0))).sum -
        (if (ms.head?.getD junkM).needsSpace then 10 else 0) -
        (if ((ms.getLast?).getD junkM).needsSpace then 10 else 0) ∧
      m.height = (ms.map Measure.height).sum := by
  intro p items ms m h1 h2
  rw [show measureOf p (.sequence items) =
      (measureList p items).bind sequenceInit from rfl, h1] at h2
  simp only [Option.some_bind] at h2
  match ms, h2 with
  | first :: rest, h2 =>
    unfold sequenceInit at h2
    simp only [Option.some.injEq] at h2
    subst h2
    have hs := railFold_spec (first :: rest) (0, 0, 0, 0)
    unfold railFold
    constructor
    · simp only [hs.1, zero_add, List.head?_cons, Option.getD_some]
    · simp only [hs.2, zero_add]

/-- C2 (witness): the amended formula applied to the concrete
two-terminal sequence. -/
theorem sequence_width_height_amended_witness :
    (⟨11, 0, 11, 76, true⟩ : Measure).width =
      ((28 : ℚ) + 20 + ((28 : ℚ) + 20 + 0)) - 10 - 10 ∧
    (⟨11, 0, 11, 76, true⟩ : Measure).height = 0 + (0 + 0) := by
  have h := sequence_width_height_amended defaultParams
    [.terminal "a" none none "", .terminal "a" none none ""]
    [⟨11, 0, 11, 28, true⟩, ⟨11, 0, 11, 28, true⟩]
    ⟨11, 0, 11, 76, true⟩
    (by norm_num [measureList, measureOf, defaultParams,
      show "a".length = 1 from rfl])
    (by norm_num [measureOf, measureList, sequenceInit, railFold,
      defaultParams, junkM, max_def, show "a".length = 1 from rfl])
  simpa using h

/-- C4 (corrected, counterexample): `Diagram(Terminal("foo"))` formatted
with default padding writes a root `<svg>` width of 144, not the 124 the
claim computes: the terminal's `needs_space` flag adds a 10-unit
connector on each side inside the diagram, which the claim's formula
omits. -/
theorem svg_width_foo_counterexample :
    mkDiagram [some (.terminal "foo" none none "")] "simple" =
      .ok (.diagram [.start "simple" none,
        .terminal "foo" none none "", .end_ "simple"]) ∧
    (measureOf defaultParams
        (.diagram [.start "simple" none,
          .terminal "foo" none none "", .end_ "simple"])).map
      (fun m => diagramFormatWidthAttr m) = some 144 ∧
    (144 : ℚ) ≠ 124 := by
  refine ⟨rfl, ?_, by norm_num⟩
  norm_num [measureOf, measureList, diagramInit, railFold,
    defaultParams, junkM, diagramFormatWidthAttr, pyTruthyStr,
    show "foo".length = 3 from rfl]

/-- C4 (amended): for `{"element": "Terminal", "text": "foo"}` wrapped
as a `Diagram` child, formatted with defaults, the root `<svg>` width
attribute equals
`len("foo")·charWidth + 20 + 20 + 2·startWidth + 2·defaultPadding`
(the extra `+ 20` being the terminal's two 10-unit needs-space
connectors), i.e. `3·8 + 20 + 20 + 2·20 + 2·20 = 144`. -/
theorem svg_width_foo_amended :
    (measureOf defaultParams
        (.diagram [.start "simple" none,
          .terminal "foo" none none "", .end_ "simple"])).map
      (fun m => diagramFormatWidthAttr m) =
      some (("foo".length : ℚ) * 8 + 20 + 20 + 2 * 20 + 2 * 20) := by
  norm_num [measureOf, measureList, diagramInit, railFold,
    defaultParams, junkM, diagramFormatWidthAttr, pyTruthyStr,
    show "foo".length = 3 from rfl]

/-- Writing inside the list then reading the same cell. -/
theorem get?_set_self : ∀ (l : List ℚ) (i : Nat) (v : ℚ),
    i < l.length → (l.set i v).get? i = some v := by
  intro l
  induction l with
  | nil => intro i v h; simp at h
  | cons x xs ih =>
    intro i v h
    cases i with
    | zero => rfl
    | succ n =>
      have := ih n v (by simp at h; omega)
      simpa [List.set] using this

/-- Writing one cell leaves the others unchanged. -/
theorem get?_set_other : ∀ (l : List ℚ) (i j : Nat) (v : ℚ),
    i ≠ j → (l.set i v).get? j = l.get? j := by
  intro l
  induction l with
  | nil => intro i j v _; simp
  | cons x xs ih =>
    intro i j v h
    cases i with
    | zero =>
      cases j with
      | zero => exact absurd rfl h
      | succ m => rfl
    | succ n =>
      cases j with
      | zero => rfl
      | succ m =>
        have := ih n m v (by omega)
        simpa [List.set] using this

/-- The code's conditional separator bump equals the spec's
`VS + max(0, arcs - min(entryDelta, exitDelta))` form. -/
theorem sep_bump_eq (a e x VS : ℚ) :
    (if x < a ∨ e < a then VS + max (a - e) (a - x) else VS) =
      VS + max 0 (a - min e x) := by
  rcases le_or_lt a (min e x) with h | h
  · have hmin := le_min_iff.mp h
    have hc : ¬ (x < a ∨ e < a) := by
      push_neg
      exact ⟨hmin.2, hmin.1⟩
    rw [if_neg hc, max_eq_left (by linarith), add_zero]
  · have hcond : x < a ∨ e < a := by
      rcases min_lt_iff.mp h with h1 | h1
      · exact Or.inr h1
      · exact Or.inl h1
    rw [if_pos hcond, max_sub_sub_left, max_eq_right (by linarith)]

/-- `pySetQ` at a non-negative index preserves the length. -/
theorem pySetQ_length (l : List ℚ) (i : Int) (v : ℚ) :
    (pySetQ l i v).length = l.length := by
  unfold pySetQ
  split <;> simp

/-- The first `Choice.__init__` loop leaves the list length
unchanged. -/
theorem choiceUpLoop_length (AR VS : ℚ) (default : Int)
    (items : List Measure) :
    ∀ (k : Nat) (st : List ℚ × ℚ),
      ((choiceUpLoop AR VS default items k st).1).length =
        st.1.length := by
  intro k
  induction k with
  | zero => intro st; rfl
  | succ i ih =>
    intro st
    obtain ⟨seps, u⟩ := st
    rw [choiceUpLoop]
    rw [ih]
    simp [pySetQ_length]

/-- Pointwise description of the first `Choice.__init__` loop: cell `j`
holds the loop body's separator for `j < k` and is untouched
otherwise. -/
theorem choiceUpLoop_get (AR VS : ℚ) (default : Int)
    (items : List Measure) :
    ∀ (k : Nat) (seps : List ℚ) (u : ℚ) (j : Nat),
      k ≤ seps.length →
      ((choiceUpLoop AR VS default items k (seps, u)).1).get? j =
        (if j < k then
          some (
            let arcs := if (j : Int) = default - 1 then AR * 2 else AR
            let item := pyGetM items j
            let lowerItem := pyGetM items ((j : Int) + 1)
            let entryDelta := lowerItem.up + VS + item.down + item.height
            let exitDelta := lowerItem.height + lowerItem.up + VS +
              item.down
            if exitDelta < arcs ∨ entryDelta < arcs then
              VS + max (arcs - entryDelta) (arcs - exitDelta)
            else VS)
        else seps.get? j) := by
  intro k
  induction k with
  | zero =>
    intro seps u j _
    rw [choiceUpLoop]
    simp
  | succ i ih =>
    intro seps u j hk
    rw [choiceUpLoop]
    rw [ih _ _ j (by simp only [pySetQ_length]; omega)]
    by_cases hj : j < i
    · rw [if_pos hj, if_pos (show j < i + 1 by omega)]
    · rw [if_neg hj]
      by_cases hji : j = i
      · subst hji
        rw [if_pos (show j < j + 1 by omega)]
        unfold pySetQ
        rw [if_pos (show (0 : Int) ≤ (j : Int) by omega)]
        simp only [Int.toNat_ofNat]
        exact get?_set_self _ _ _ (by omega)
      · rw [if_neg (show ¬ j < i + 1 by omega)]
        unfold pySetQ
        rw [if_pos (show (0 : Int) ≤ (i : Int) by omega)]
        simp only [Int.toNat_ofNat]
        exact get?_set_other _ _ _ _ (by omega)

/-- Folding `choiceDownStep` preserves the separator-list length. -/
theorem foldl_downStep_length (AR VS : ℚ) (default : Int)
    (items : List Measure) :
    ∀ (idxs : List Int) (st : List ℚ × ℚ),
      ((idxs.foldl (choiceDownStep AR VS default items) st).1).length =
        st.1.length := by
  intro idxs
  induction idxs with
  | nil => intro st; rfl
  | cons i rest ih =>
    intro st
    rw [List.foldl_cons, ih]
    simp [choiceDownStep, pySetQ_length]

/-- Pointwise description of the second `Choice.__init__` loop over the
index block `lo, lo+1, ..., lo+cnt-1`: cell `j` holds the loop body's
separator (for loop variable `i = j + 1`) when `lo - 1 ≤ j < lo + cnt - 1`
and is untouched otherwise. -/
theorem foldl_downStep_get (AR VS : ℚ) (default : Int)
    (items : List Measure) :
    ∀ (cnt : Nat) (lo : Int) (st : List ℚ × ℚ) (j : Nat),
      1 ≤ lo → lo + cnt ≤ (st.1.length : Int) + 1 →
      (((intRange lo cnt).foldl
          (choiceDownStep AR VS default items) st).1).get? j =
        (if lo - 1 ≤ (j : Int) ∧ (j : Int) < lo - 1 + cnt then
          some (
            let arcs := if (j : Int) + 1 = default + 1 then AR * 2
              else AR
            let item := pyGetM items ((j : Int) + 1)
            let upperItem := pyGetM items ((j : Int) + 1 - 1)
            let entryDelta := upperItem.height + upperItem.down + VS +
              item.up
            let exitDelta := upperItem.down + VS + item.up + item.height
            if entryDelta < arcs ∨ exitDelta < arcs then
              VS + max (arcs - entryDelta) (arcs - exitDelta)
            else VS)
        else st.1.get? j) := by
  intro cnt
  induction cnt with
  | zero =>
    intro lo st j _ _
    rw [if_neg (show ¬ (lo - 1 ≤ (j : Int) ∧
      (j : Int) < lo - 1 + ((0 : Nat) : Int)) by omega)]
    rfl
  | succ c ih =>
    intro lo st j hlo hbound
    rw [show intRange lo (c + 1) = intRange lo c ++ [lo + (c : Int)] by
      simp [intRange, List.range_succ]]
    rw [List.foldl_append]
    simp only [List.foldl_cons, List.foldl_nil]
    have hlen := foldl_downStep_length AR VS default items
      (intRange lo c) st
    by_cases hj : (j : Int) = lo + c - 1
    · rw [show (choiceDownStep AR VS default items
          ((intRange lo c).foldl
            (choiceDownStep AR VS default items) st) (lo + (c : Int))) =
          (pySetQ ((intRange lo c).foldl
              (choiceDownStep AR VS default items) st).1
            (lo + (c : Int) - 1)
            (let arcs := if lo + (c : Int) = default + 1 then AR * 2
               else AR
             let item := pyGetM items (lo + (c : Int))
             let upperItem := pyGetM items (lo + (c : Int) - 1)
             let entryDelta := upperItem.height + upperItem.down + VS +
               item.up
             let exitDelta := upperItem.down + VS + item.up + item.height
             if entryDelta < arcs ∨ exitDelta < arcs then
               VS + max (arcs - entryDelta) (arcs - exitDelta)
             else VS),
           _) from rfl]
      have hidx : lo + (c : Int) - 1 = (j : Int) := by omega
      rw [hidx]
      unfold pySetQ
      rw [if_pos (show (0 : Int) ≤ (j : Int) by omega)]
      simp only [Int.toNat_ofNat]
      rw [get?_set_self _ _ _ (by rw [hlen]; omega)]
      rw [if_pos (show lo - 1 ≤ (j : Int) ∧
        (j : Int) < lo - 1 + ((c + 1 : Nat) : Int) by
          constructor <;> omega)]
      have hi : lo + (c : Int) = (j : Int) + 1 := by omega
      rw [hi]
      have e : (j : Int) + 1 - 1 = (j : Int) := by omega
      rw [e]
    · rw [show (choiceDownStep AR VS default items
          ((intRange lo c).foldl
            (choiceDownStep AR VS default items) st) (lo + (c : Int))) =
          (pySetQ ((intRange lo c).foldl
              (choiceDownStep AR VS default items) st).1
            (lo + (c : Int) - 1)
            (let arcs := if lo + (c : Int) = default + 1 then AR * 2
               else AR
             let item := pyGetM items (lo + (c : Int))
             let upperItem := pyGetM items (lo + (c : Int) - 1)
             let entryDelta := upperItem.height + upperItem.down + VS +
               item.up
             let exitDelta := upperItem.down + VS + item.up + item.height
             if entryDelta < arcs ∨ exitDelta < arcs then
               VS + max (arcs - entryDelta) (arcs - exitDelta)
             else VS),
           _) from rfl]
      unfold pySetQ
      rw [if_pos (show (0 : Int) ≤ lo + (c : Int) - 1 by omega)]
      rw [get?_set_other _ _ _ _ (by omega)]
      rw [ih lo st j hlo (by omega)]
      by_cases hin : lo - 1 ≤ (j : Int) ∧
          (j : Int) < lo - 1 + ((c : Nat) : Int)
      · rw [if_pos hin, if_pos (show lo - 1 ≤ (j : Int) ∧
          (j : Int) < lo - 1 + ((c + 1 : Nat) : Int) by
            obtain ⟨h1, h2⟩ := hin
            constructor <;> omega)]
      · rw [if_neg hin, if_neg (show ¬ (lo - 1 ≤ (j : Int) ∧
          (j : Int) < lo - 1 + ((c + 1 : Nat) : Int)) by
            intro hcon
            exact hin ⟨hcon.1, by omega⟩)]

/-- Variant of `sep_bump_eq` with the disjuncts in the second loop's
order. -/
theorem sep_bump_eq_down (a e x VS : ℚ) :
    (if e < a ∨ x < a then VS + max (a - e) (a - x) else VS) =
      VS + max 0 (a - min e x) := by
  rw [max_comm (a - e) (a - x), sep_bump_eq, min_comm]

/-- The first loop's body at cell `j` computes `specChoiceSeparator`
when `j < default`. -/
theorem up_cell_spec (AR VS : ℚ) (default : Int)
    (items : List Measure) (j : Nat) (h : (j : Int) < default) :
    (let arcs := if (j : Int) = default - 1 then AR * 2 else AR
     let item := pyGetM items j
     let lowerItem := pyGetM items ((j : Int) + 1)
     let entryDelta := lowerItem.up + VS + item.down + item.height
     let exitDelta := lowerItem.height + lowerItem.up + VS + item.down
     if exitDelta < arcs ∨ entryDelta < arcs then
       VS + max (arcs - entryDelta) (arcs - exitDelta)
     else VS) = specChoiceSeparator AR VS default items j := by
  simp only [specChoiceSeparator]
  rw [if_pos h]
  by_cases hje : (j : Int) = default - 1
  · simp only [if_pos hje]
    rw [mul_comm (2 : ℚ) AR, sep_bump_eq]
  · simp only [if_neg hje]
    rw [sep_bump_eq]

/-- The second loop's body at cell `j` (loop variable `j + 1`) computes
`specChoiceSeparator` when `default ≤ j`. -/
theorem down_cell_spec (AR VS : ℚ) (default : Int)
    (items : List Measure) (j : Nat) (h : default ≤ (j : Int)) :
    (let arcs := if (j : Int) + 1 = default + 1 then AR * 2 else AR
     let item := pyGetM items ((j : Int) + 1)
     let upperItem := pyGetM items ((j : Int) + 1 - 1)
     let entryDelta := upperItem.height + upperItem.down + VS + item.up
     let exitDelta := upperItem.down + VS + item.up + item.height
     if entryDelta < arcs ∨ exitDelta < arcs then
       VS + max (arcs - entryDelta) (arcs - exitDelta)
     else VS) = specChoiceSeparator AR VS default items j := by
  have e1 : (j : Int) + 1 - 1 = (j : Int) := by omega
  simp only [specChoiceSeparator, e1]
  rw [if_neg (show ¬ (j : Int) < default by omega)]
  by_cases hje : (j : Int) = default
  · simp only [if_pos (show (j : Int) + 1 = default + 1 by omega),
      if_pos hje]
    rw [mul_comm (2 : ℚ) AR, sep_bump_eq_down]
  · simp only [if_neg (show ¬ (j : Int) + 1 = default + 1 by omega),
      if_neg hje]
    rw [sep_bump_eq_down]

/-- C3: a constructed `Choice`'s width is `4·AR` plus the widest child,
and each stored inter-branch separator equals
`VS + max(0, arcNeeded - availableGap)`, with `arcNeeded = 2·AR` for the
two gaps adjacent to the default branch and `AR` otherwise, and
`availableGap` the smaller of the entry-side and exit-side natural gaps
between the two adjacent branches (`specChoiceSeparator`). -/
theorem choice_width_and_separators :
    ∀ (AR VS : ℚ) (default : Int) (items : List Measure)
      (c : ChoiceResult),
      0 ≤ default → default < (items.length : Int) →
      choiceInit AR VS default items = some c →
      c.width = 4 * AR + maxQ (items.map Measure.width) ∧
      c.separators.length = items.length - 1 ∧
      ∀ j : Nat, j < items.length - 1 →
        c.separators.get? j =
          some (specChoiceSeparator AR VS default items j) := by
  intro AR VS dflt items c h0 hn hinit
  cases items with
  | nil =>
    rw [choiceInit] at hinit
    simp at hinit
  | cons m ms =>
    have hn1 : 1 ≤ (m :: ms).length := by simp
    simp only [choiceInit] at hinit
    rw [if_neg (not_not_intro hn)] at hinit
    rw [if_neg (show ¬ dflt < -(((m :: ms).length : Nat) : Int) by
      omega)] at hinit
    simp only [Option.some.injEq] at hinit
    subst hinit
    have hlen0 : (List.replicate ((m :: ms).length - 1) VS).length =
        (m :: ms).length - 1 := by simp
    have hlen1 := choiceUpLoop_length AR VS dflt (m :: ms) dflt.toNat
      (List.replicate ((m :: ms).length - 1) VS, 0)
    refine ⟨by rw [mul_comm], ?_, ?_⟩
    · show ((choiceDownLoop AR VS dflt (m :: ms) _).1).length = _
      simp only [choiceDownLoop]
      rw [foldl_downStep_length]
      simp only [hlen1, hlen0]
    · intro j hj
      show ((choiceDownLoop AR VS dflt (m :: ms)
        ((choiceUpLoop AR VS dflt (m :: ms) dflt.toNat
          (List.replicate ((m :: ms).length - 1) VS, 0)).1, 0)).1).get?
          j = _
      simp only [choiceDownLoop]
      have hget := foldl_downStep_get AR VS dflt (m :: ms)
        ((((m :: ms).length : Int) - (dflt + 1)).toNat) (dflt + 1)
        ((choiceUpLoop AR VS dflt (m :: ms) dflt.toNat
          (List.replicate ((m :: ms).length - 1) VS, 0)).1, 0) j
        (by omega)
        (by simp only [hlen1, hlen0]; omega)
      rw [hget]
      by_cases hjd : dflt ≤ (j : Int)
      · rw [if_pos (show dflt + 1 - 1 ≤ (j : Int) ∧ (j : Int) <
          dflt + 1 - 1 + ((((m :: ms).length : Int) -
            (dflt + 1)).toNat : Int) by omega)]
        exact congrArg some (down_cell_spec AR VS dflt (m :: ms) j hjd)
      · rw [if_neg (show ¬ (dflt + 1 - 1 ≤ (j : Int) ∧ (j : Int) <
          dflt + 1 - 1 + ((((m :: ms).length : Int) -
            (dflt + 1)).toNat : Int)) by omega)]
        rw [choiceUpLoop_get AR VS dflt (m :: ms) dflt.toNat
          (List.replicate ((m :: ms).length - 1) VS) 0 j
          (by rw [hlen0]; omega)]
        rw [if_pos (show j < dflt.toNat by omega)]
        exact congrArg some (up_cell_spec AR VS dflt (m :: ms) j
          (by omega))

/-- C3 (witness): the theorem applied to a two-branch choice of
terminal-shaped children (`default = 0`): width `68`, one separator,
equal to `specChoiceSeparator`. -/
theorem choice_width_and_separators_witness :
    (0 : Int) ≤ 0 ∧
    (0 : Int) < ((([⟨11, 0, 11, 28, true⟩, ⟨11, 0, 11, 28, true⟩] :
      List Measure)).length : Int) ∧
    choiceInit 10 8 0 [⟨11, 0, 11, 28, true⟩, ⟨11, 0, 11, 28, true⟩] =
      some ⟨11, 0, 41, 68, [8]⟩ ∧
    ((⟨11, 0, 41, 68, [8]⟩ : ChoiceResult).width =
        4 * 10 + maxQ (([⟨11, 0, 11, 28, true⟩,
          ⟨11, 0, 11, 28, true⟩] : List Measure).map Measure.width) ∧
      (⟨11, 0, 41, 68, [8]⟩ : ChoiceResult).separators.length =
        ([⟨11, 0, 11, 28, true⟩, ⟨11, 0, 11, 28, true⟩] :
          List Measure).length - 1 ∧
      ∀ j : Nat, j < ([⟨11, 0, 11, 28, true⟩, ⟨11, 0, 11, 28, true⟩] :
          List Measure).length - 1 →
        (⟨11, 0, 41, 68, [8]⟩ : ChoiceResult).separators.get? j =
          some (specChoiceSeparator 10 8 0
            [⟨11, 0, 11, 28, true⟩, ⟨11, 0, 11, 28, true⟩] j)) := by
  have hInit : choiceInit 10 8 0 [(⟨11, 0, 11, 28, true⟩ : Measure),
      ⟨11, 0, 11, 28, true⟩] = some ⟨11, 0, 41, 68, [8]⟩ := by
    norm_num [choiceInit, choiceUpLoop, choiceDownLoop, choiceDownStep,
      intRange, pySetQ, pyGetM, maxQ, List.range_succ]
  exact ⟨by norm_num, by norm_num, hInit,
    choice_width_and_separators 10 8 0 _ _ (by norm_num) (by norm_num)
      hInit⟩

/-- C9 (witness): the theorem applied to a concrete formatted state. -/
theorem write_standalone_restores_state_witness :
    writeStandalone id
      ⟨[("class", "railroad-diagram"), ("width", "144")],
       [RootChild.otherC 0], true⟩ none "svg {}" =
      ⟨[("class", "railroad-diagram"), ("width", "144")],
       [RootChild.otherC 0], true⟩ :=
  write_standalone_restores_state id
    ⟨[("class", "railroad-diagram"), ("width", "144")],
     [RootChild.otherC 0], true⟩ none "svg {}" rfl rfl rfl

/-- Children that all parsed successfully collect into their argument
tuple. -/
theorem collectFD_map_ok : ∀ ts : List Tree,
    collectFD (ts.map FD.ok) = .ok (ts.map some) := by
  intro ts
  induction ts with
  | nil => rfl
  | cons t ts ih => simp [collectFD, ih, Except.map]

/-- `allSome` on a list of present children returns them. -/
theorem allSome_map_some : ∀ ts : List Tree,
    allSome (ts.map some) = some ts := by
  intro ts
  induction ts with
  | nil => rfl
  | cons t ts ih => simp [allSome, ih]

/-- `getLast?` through the `some`-wrapping of a child list. -/
theorem getLast?_map_some' : ∀ (rest : List Tree) (f : Tree),
    (some f :: rest.map (some : Tree → Option Tree)).getLast? =
      ((f :: rest).getLast?).map some := by
  intro rest
  induction rest with
  | nil => intro f; rfl
  | cons y ys ih =>
    intro f
    rw [List.map_cons, List.getLast?_cons_cons, ih y,
      List.getLast?_cons_cons]

/-- Every `to_dict` image is a dictionary. -/
theorem toDict_obj : ∀ t : Tree, ∃ kvs, toDict t = .obj kvs := by
  intro t
  cases t
  case group item label => cases label <;> exact ⟨_, rfl⟩
  all_goals exact ⟨_, rfl⟩

/-- `mkSequence` on canonically parsed, non-empty children. -/
theorem mkSequence_canonical (items : List Tree) (hne : items ≠ []) :
    mkSequence (items.map some) = .ok (.sequence items) := by
  unfold mkSequence
  rw [allSome_map_some]
  cases items with
  | nil => exact absurd rfl hne
  | cons x xs => rfl

/-- `mkStack` on canonically parsed, non-empty children. -/
theorem mkStack_canonical (items : List Tree) (hne : items ≠ []) :
    mkStack (items.map some) = .ok (.stack items) := by
  unfold mkStack
  cases items with
  | nil => exact absurd rfl hne
  | cons x xs =>
    rw [List.map_cons]
    rw [show allSome (some x :: xs.map some) = some (x :: xs) by
      rw [show (some x :: xs.map some) = (x :: xs).map some from rfl,
        allSome_map_some]]

/-- `mkChoice` on canonically parsed children with an in-range
default. -/
theorem mkChoice_canonical (default : Int) (items : List Tree)
    (h0 : 0 ≤ default) (h1 : default < (items.length : Int)) :
    mkChoice default (items.map some) = .ok (.choice default items) := by
  unfold mkChoice
  have hc : ¬ ¬ default <
      ((items.map (some : Tree → Option Tree)).length : Int) := by
    rw [List.length_map]
    omega
  rw [if_neg hc, allSome_map_some]
  cases items with
  | nil => simp at h1; omega
  | cons x xs =>
    show (if default < -(((x :: xs).length : Nat) : Int) then
        (Except.error PyExn.indexError : Except PyExn Tree)
      else Except.ok (Tree.choice default (x :: xs))) = _
    rw [if_neg (show ¬ default < -(((x :: xs).length : Nat) : Int) by
      simp
      omega)]

/-- `mkMultipleChoice` on canonically parsed children with an in-range
default and a valid type tag. -/
theorem mkMultipleChoice_canonical (default : Int) (ty : String)
    (items : List Tree) (h0 : 0 ≤ default)
    (h1 : default < (items.length : Int))
    (hty : ty = "any" ∨ ty = "all") :
    mkMultipleChoice default (some ty) (items.map some) =
      .ok (.multipleChoice default ty items) := by
  unfold mkMultipleChoice
  have hc : 0 ≤ default ∧ default <
      ((items.map (some : Tree → Option Tree)).length : Int) := by
    rw [List.length_map]
    exact ⟨h0, h1⟩
  rw [if_neg (not_not_intro hc)]
  show (if ¬ (ty = "any" ∨ ty = "all") then
      (Except.error PyExn.assertionError : Except PyExn Tree)
    else match allSome (items.map some) with
      | none => Except.error PyExn.attributeError
      | some ts => Except.ok (Tree.multipleChoice default ty ts)) = _
  rw [if_neg (not_not_intro hty), allSome_map_some]

/-- `mkAlternatingSequence` on canonically parsed children of length
two. -/
theorem mkAlternatingSequence_canonical (items : List Tree)
    (h : items.length = 2) :
    mkAlternatingSequence (items.map some) =
      .ok (.alternatingSequence items) := by
  unfold mkAlternatingSequence
  rw [if_neg (by simp [h]), allSome_map_some]

/-- `mkHorizontalChoice` on canonically parsed children, at least
two. -/
theorem mkHorizontalChoice_canonical (items : List Tree)
    (h : 2 ≤ items.length) :
    mkHorizontalChoice (items.map some) =
      .ok (.horizontalChoice items) := by
  unfold mkHorizontalChoice
  rw [if_neg (by simp; omega), allSome_map_some]

/-- `mkOptionalSequence` on canonically parsed children, at least
two. -/
theorem mkOptionalSequence_canonical (items : List Tree)
    (h : 2 ≤ items.length) :
    mkOptionalSequence (items.map some) =
      .ok (.optionalSequence items) := by
  unfold mkOptionalSequence
  rw [if_neg (by simp; omega), allSome_map_some]

/-- `mkDiagram` on canonically parsed children that already begin with a
`Start` and end with an `End`. -/
theorem mkDiagram_canonical (items : List Tree)
    (h1 : (match items with
           | [] => false
           | first :: _ => first.isStart) = true)
    (h2 : (match items.getLast? with
           | some t => t.isEnd
           | none => false) = true) :
    mkDiagram (items.map some) "simple" = .ok (.diagram items) := by
  cases items with
  | nil => simp at h1
  | cons f rest =>
    have h1' : f.isStart = true := h1
    unfold mkDiagram
    rw [List.map_cons]
    simp only [getLast?_map_some', h1', if_true]
    cases hlast : (f :: rest).getLast? with
    | none => rw [hlast] at h2; simp at h2
    | some lst =>
      rw [hlast] at h2
      have h2' : lst.isEnd = true := h2
      simp [Option.map_some', h2', allSome, allSome_map_some]

mutual

/-- Round trip on canonical dictionaries: `from_dict` rebuilds every
well-formed tree from its own `to_dict` image. -/
theorem fromDict_toDict (t : Tree) (hw : WF t = true) :
    fromDict (toDict t) = FD.ok t := by
  cases t with
  | terminal text href title cls =>
    unfold fromDict
    cases href <;> cases title <;>
      simp [toDict, lookupKV, fromDictCases, bindE, reqStr, getOptStr,
        getCls, optStr]
  | nonTerminal text href title cls =>
    unfold fromDict
    cases href <;> cases title <;>
      simp [toDict, lookupKV, fromDictCases, bindE, reqStr, getOptStr,
        getCls, optStr]
  | comment text href title cls =>
    unfold fromDict
    cases href <;> cases title <;>
      simp [toDict, lookupKV, fromDictCases, bindE, reqStr, getOptStr,
        getCls, optStr]
  | expression text href title cls =>
    unfold fromDict
    cases href <;> cases title <;>
      simp [toDict, lookupKV, fromDictCases, bindE, reqStr, getOptStr,
        getCls, optStr]
  | skip =>
    unfold fromDict
    simp [toDict, lookupKV, fromDictCases]
  | start type label =>
    unfold fromDict
    cases label <;>
      simp [toDict, lookupKV, fromDictCases, bindE, getTypeField,
        getOptStr, optStr]
  | end_ type =>
    unfold fromDict
    simp [toDict, lookupKV, fromDictCases, bindE, getTypeField]
  | arrow direction =>
    unfold fromDict
    simp [toDict, lookupKV, fromDictCases, bindE, getTypeField]
  | sequence items =>
    simp only [WF, Bool.and_eq_true, Bool.not_eq_true'] at hw
    have hlist := fromDictList_toDictList items hw.2
    have hne : items ≠ [] := by
      cases items with
      | nil => simp at hw
      | cons x xs => simp
    unfold fromDict
    simp [toDict, lookupKV, fromDictCases, bindE, hlist,
      collectFD_map_ok, mkSequence_canonical items hne, exceptFD]
  | stack items =>
    simp only [WF, Bool.and_eq_true, Bool.not_eq_true'] at hw
    have hlist := fromDictList_toDictList items hw.2
    have hne : items ≠ [] := by
      cases items with
      | nil => simp at hw
      | cons x xs => simp
    unfold fromDict
    simp [toDict, lookupKV, fromDictCases, bindE, hlist,
      collectFD_map_ok, mkStack_canonical items hne, exceptFD]
  | optionalSequence items =>
    simp only [WF, Bool.and_eq_true, decide_eq_true_eq] at hw
    have hlist := fromDictList_toDictList items hw.2
    unfold fromDict
    simp [toDict, lookupKV, fromDictCases, bindE, hlist,
      collectFD_map_ok, mkOptionalSequence_canonical items hw.1,
      exceptFD]
  | alternatingSequence items =>
    simp only [WF, Bool.and_eq_true, beq_iff_eq] at hw
    have hlist := fromDictList_toDictList items hw.2
    unfold fromDict
    simp [toDict, lookupKV, fromDictCases, bindE, hlist,
      collectFD_map_ok, mkAlternatingSequence_canonical items hw.1,
      exceptFD]
  | choice default items =>
    simp only [WF, Bool.and_eq_true, decide_eq_true_eq] at hw
    have hlist := fromDictList_toDictList items hw.2
    unfold fromDict
    simp [toDict, lookupKV, fromDictCases, bindE, hlist,
      collectFD_map_ok, choiceDefault, pyIntOf,
      mkChoice_canonical default items hw.1.1 hw.1.2, exceptFD]
  | multipleChoice default type items =>
    simp only [WF, Bool.and_eq_true, decide_eq_true_eq, Bool.or_eq_true,
      beq_iff_eq] at hw
    have hlist := fromDictList_toDictList items hw.2
    unfold fromDict
    simp [toDict, lookupKV, fromDictCases, bindE, hlist,
      collectFD_map_ok, pyIntOf,
      mkMultipleChoice_canonical default type items hw.1.1.1 hw.1.1.2
        hw.1.2, exceptFD]
  | horizontalChoice items =>
    simp only [WF, Bool.and_eq_true, decide_eq_true_eq] at hw
    have hlist := fromDictList_toDictList items hw.2
    unfold fromDict
    simp [toDict, lookupKV, fromDictCases, bindE, hlist,
      collectFD_map_ok, mkHorizontalChoice_canonical items hw.1,
      exceptFD]
  | oneOrMore item rep =>
    simp only [WF, Bool.and_eq_true] at hw
    have hitem := fromDict_toDict item hw.1
    have hrep := fromDict_toDict rep hw.2
    obtain ⟨kvsR, hkR⟩ := toDict_obj rep
    rw [hkR] at hrep
    unfold fromDict
    simp [toDict, lookupKV, fromDictCases, bindE, hitem, hrep, hkR,
      fdOpt, mkOneOrMore, exceptFD]
  | group item label =>
    cases label with
    | none =>
      simp only [WF, Bool.and_eq_true] at hw
      have hitem := fromDict_toDict item hw.1
      unfold fromDict
      simp [toDict, lookupKV, fromDictCases, bindE, hitem, fdOpt,
        mkGroup, exceptFD]
    | some l =>
      simp only [WF, Bool.and_eq_true] at hw
      have hitem := fromDict_toDict item hw.1
      have hlab := fromDict_toDict l hw.2
      obtain ⟨kvsL, hkL⟩ := toDict_obj l
      rw [hkL] at hlab
      unfold fromDict
      simp [toDict, lookupKV, fromDictCases, bindE, hitem, hlab, hkL,
        fdOpt, mkGroup, exceptFD]
  | diagram items =>
    simp only [WF, Bool.and_eq_true] at hw
    obtain ⟨⟨h1, h2⟩, h3⟩ := hw
    have hlist := fromDictList_toDictList items h3
    unfold fromDict
    simp [toDict, lookupKV, fromDictCases, bindE, hlist,
      collectFD_map_ok, mkDiagram_canonical items h1 h2, exceptFD]
termination_by sizeOf t

/-- List version of the canonical round trip. -/
theorem fromDictList_toDictList (ts : List Tree)
    (hw : WFList ts = true) :
    fromDictList (toDictList ts) = ts.map FD.ok := by
  cases ts with
  | nil => simp [fromDictList, toDictList]
  | cons t ts' =>
    simp only [WFList, Bool.and_eq_true] at hw
    have ht := fromDict_toDict t hw.1
    have hts := fromDictList_toDictList ts' hw.2
    show fromDictList (toDict t :: toDictList ts') = _
    unfold fromDictList
    simp [ht, hts]
termination_by sizeOf ts

end

/-- `from_dict` on a list comprehension splits over `++`. -/
theorem fromDictList_append : ∀ l1 l2 : List DictVal,
    fromDictList (l1 ++ l2) = fromDictList l1 ++ fromDictList l2 := by
  intro l1 l2
  induction l1 with
  | nil => simp [fromDictList]
  | cons d ds ih => simp [fromDictList, ih]

/-- The non-canonical terminal dictionary parses: the missing optional
keys fall back to `None`/`None`/`""`. -/
theorem fromDict_cexTermDict :
    fromDict cexTermDict = FD.ok (.terminal "t" none none "") := by
  unfold fromDict
  simp [cexTermDict, lookupKV, fromDictCases, bindE, reqStr, getOptStr,
    getCls]

/-- `bindE` on a successful extraction just continues. -/
theorem bindE_ok {α : Type} (a : α) (f : α → FD) :
    bindE (.ok a) f = f a := rfl

/-- The `"Sequence"` dispatch of `fromDictCases`, with the child parses
left opaque. -/
theorem fromDictCases_sequence (kvs : List (String × DictVal))
    (L : List DictVal) (ip : List FD) (il : Option DictVal) (ipar : FD)
    (rl : Option DictVal) (rpar : FD) (ll : Option DictVal)
    (lpar : FD) :
    fromDictCases "Sequence" kvs (some (.list L)) ip il ipar rl rpar
      ll lpar =
      bindE (collectFD ip) fun cs => exceptFD (mkSequence cs) := by
  unfold fromDictCases
  simp only [if_neg (show ¬ ("Sequence" = "Diagram") by decide),
    if_neg (show ¬ ("Sequence" = "Start") by decide),
    if_neg (show ¬ ("Sequence" = "End") by decide),
    if_neg (show ¬ ("Sequence" = "Arrow") by decide),
    if_neg (show ¬ ("Sequence" = "Terminal") by decide),
    if_neg (show ¬ ("Sequence" = "NonTerminal") by decide),
    if_neg (show ¬ ("Sequence" = "Stack") by decide),
    if_neg (show ¬ ("Sequence" = "Choice") by decide),
    if_neg (show ¬ ("Sequence" = "HorizontalChoice") by decide),
    if_neg (show ¬ ("Sequence" = "OptionalSequence") by decide),
    if_neg (show ¬ ("Sequence" = "AlternatingSequence") by decide),
    if_neg (show ¬ ("Sequence" = "MultipleChoice") by decide),
    if_neg (show ¬ ("Sequence" = "Skip") by decide),
    if_neg (show ¬ ("Sequence" = "OneOrMore") by decide),
    if_neg (show ¬ ("Sequence" = "ZeroOrMore") by decide),
    if_neg (show ¬ ("Sequence" = "Optional") by decide),
    if_neg (show ¬ ("Sequence" = "Comment") by decide)]
  rfl

/-- The `"Diagram"` dispatch of `fromDictCases`, with the child parses
left opaque. -/
theorem fromDictCases_diagram (kvs : List (String × DictVal))
    (L : List DictVal) (ip : List FD) (il : Option DictVal) (ipar : FD)
    (rl : Option DictVal) (rpar : FD) (ll : Option DictVal)
    (lpar : FD) :
    fromDictCases "Diagram" kvs (some (.list L)) ip il ipar rl rpar
      ll lpar =
      bindE (collectFD ip) fun cs => exceptFD (mkDiagram cs "simple") := by
  unfold fromDictCases
  rfl

/-- The counterexample's sequence dictionary parses to the expected
sequence node. -/
theorem fromDict_cexSeqDict :
    fromDict cexSeqDict =
      FD.ok (.sequence (cexSeqInit ++ [.terminal "t" none none ""])) := by
  have hlist := fromDictList_toDictList cexSeqInit rfl
  have hne : cexSeqInit ++ [(.terminal "t" none none "" : Tree)] ≠ [] := by
    simp [cexSeqInit]
  have hAll : fromDictList (toDictList cexSeqInit ++ [cexTermDict]) =
      (cexSeqInit ++ [(.terminal "t" none none "" : Tree)]).map FD.ok := by
    rw [fromDictList_append, hlist, List.map_append]
    simp [fromDictList, fromDict_cexTermDict]
  unfold fromDict
  simp [lookupKV, cexSeqDict]
  rw [hAll, fromDictCases_sequence, collectFD_map_ok]
  simp only [bindE_ok]
  rw [mkSequence_canonical _ hne]
  rfl

/-- The full counterexample dictionary parses to `cexTree`. -/
theorem fromDict_cexDict : fromDict cexDict = FD.ok cexTree := by
  have hS := fromDict_toDict (.start "simple" none) rfl
  have hE := fromDict_toDict (.end_ "simple") rfl
  have hL : fromDictList [toDict (.start "simple" none), cexSeqDict,
      toDict (.end_ "simple")] =
      ([.start "simple" none,
        .sequence (cexSeqInit ++ [.terminal "t" none none ""]),
        .end_ "simple"] : List Tree).map FD.ok := by
    simp [fromDictList, hS, hE, fromDict_cexSeqDict]
  unfold fromDict
  simp [lookupKV, cexDict]
  rw [hL, fromDictCases_diagram, collectFD_map_ok]
  simp only [bindE_ok]
  rw [mkDiagram_canonical _ rfl rfl]
  rfl

/-- C1 (counterexample): `cexDict` is a valid structural dictionary —
`from_dict` parses it to `cexTree` — and the parsed tree covers every
one of the 18 node kinds, yet serialising back does not return `cexDict`
(the terminal's omitted optional `href` key is re-emitted as an explicit
`"href": None` entry). -/
theorem round_trip_counterexample :
    fromDict cexDict = FD.ok cexTree ∧
    coversAllKinds cexTree = true ∧
    toDict cexTree ≠ cexDict := by
  refine ⟨fromDict_cexDict, rfl, ?_⟩
  intro h
  have h1 : probeHref (toDict cexTree) = some (some .null) := rfl
  rw [h] at h1
  have h2 : probeHref cexDict = some none := rfl
  rw [h2] at h1
  simp at h1

/-- C1 (amended): the round trip holds on canonical dictionaries — for
every well-formed tree `t`, `from_dict (to_dict t)` rebuilds `t`
exactly, so `to_dict (from_dict d) = d` for every dictionary `d` in the
image of `to_dict` over well-formed trees.  It does not hold for every
valid structural dictionary: `from_dict` fills defaults for omitted
optional keys that `to_dict` re-emits explicitly (see the
counterexample). -/
theorem canonical_round_trip (t : Tree) (hw : WF t = true) :
    fromDict (toDict t) = FD.ok t :=
  fromDict_toDict t hw

/-- C1 (witness): the amended theorem applied to a concrete terminal. -/
theorem canonical_round_trip_witness :
    WF (Tree.terminal "x" none none "") = true ∧
    fromDict (toDict (Tree.terminal "x" none none "")) =
      FD.ok (Tree.terminal "x" none none "") :=
  ⟨rfl, canonical_round_trip (Tree.terminal "x" none none "") rfl⟩

/-- Destructure a successful `Except` bind. -/
theorem exbind_ok {α β : Type} {e : Except PyExn α}
    {f : α → Except PyExn β} {b : β}
    (h : (e >>= f) = .ok b) : ∃ a, e = .ok a ∧ f a = .ok b := by
  cases e with
  | error ex => exact absurd h (by simp [Bind.bind, Except.bind])
  | ok a => exact ⟨a, rfl, h⟩

/-- A successful `TextDiagram(...)` call stores exactly its
arguments. -/
theorem mkTD_ok {e x : Int} {ls : List String} {c : TD}
    (h : mkTD e x ls = .ok c) : c.val = ⟨e, x, ls⟩ := by
  unfold mkTD at h
  split at h
  · simp only [Except.ok.injEq] at h
    rw [← h]
  · simp at h

/-- `_enclose_lines` keeps the number of lines. -/
theorem encloseLines_ok_length {lines lefts rights ls : List String}
    (h : encloseLines lines lefts rights = .ok ls) :
    ls.length = lines.length := by
  unfold encloseLines at h
  by_cases h1 : lines.length ≠ lefts.length
  · rw [if_pos h1] at h
    simp at h
  · rw [if_neg h1] at h
    by_cases h2 : lines.length ≠ rights.length
    · rw [if_pos h2] at h
      simp at h
    · rw [if_neg h2] at h
      simp only [Except.ok.injEq] at h
      subst h
      simp [List.length_zip]
      omega

/-- `center` keeps entry, exit and the line count. -/
theorem center_ok_fields {a : TD} {w : Int} {pad : String} {ca : TD}
    (h : TD.center a w pad = .ok ca) :
    ca.val.entry = a.val.entry ∧ ca.val.exit = a.val.exit ∧
      ca.val.lines.length = a.val.lines.length := by
  unfold TD.center at h
  by_cases h1 : ¬ (a.width : Int) ≤ w
  · rw [if_pos h1] at h
    simp at h
  · rw [if_neg h1] at h
    by_cases h2 : w = (a.width : Int)
    · rw [if_pos h2] at h
      unfold TD.copy at h
      have hv := mkTD_ok h
      rw [hv]
      exact ⟨rfl, rfl, rfl⟩
    · rw [if_neg h2] at h
      dsimp only at h
      split at h
      · simp at h
      · rename_i ls hls
        have hv := mkTD_ok h
        have hlen := encloseLines_ok_length hls
        rw [hv]
        exact ⟨rfl, rfl, hlen⟩

/-- A successful `mapM` (the `_pad_r` comprehension of `append_below`)
keeps the list length. -/
theorem mapM_ok_length {f : String → Except PyExn String} :
    ∀ (l : List String) (bs : List String),
      l.mapM f = .ok bs → bs.length = l.length := by
  intro l
  induction l with
  | nil =>
    intro bs h
    simp only [List.mapM_nil] at h
    simp only [pure, Except.pure, Except.ok.injEq] at h
    rw [← h]
  | cons x xs ih =>
    intro bs h
    rw [List.mapM_cons] at h
    obtain ⟨y, hy, h⟩ := exbind_ok h
    obtain ⟨ys, hys, h⟩ := exbind_ok h
    simp only [pure, Except.pure, Except.ok.injEq] at h
    rw [← h]
    simp [ih ys hys]

/-- `append_right` preserves genuine row-index entry/exit. -/
theorem appendRight_strong (parts : String → String) (a b : TD)
    (cb : String) (c : TD) (ha : StrongTD a) (hb : StrongTD b)
    (h : appendRight parts a b cb = .ok c) : StrongTD c := by
  unfold appendRight at h
  obtain ⟨left, hL, h⟩ := exbind_ok h
  obtain ⟨right, hR, h⟩ := exbind_ok h
  have hv := mkTD_ok h
  obtain ⟨ha1, ha2, ha3, ha4⟩ := ha
  obtain ⟨hb1, hb2, hb3, hb4⟩ := hb
  simp only [TD.entry, TD.exit, TD.height, TDRaw.height] at *
  have hj1 : a.val.exit ≤ max a.val.exit b.val.entry := le_max_left _ _
  have hj2 : b.val.entry ≤ max a.val.exit b.val.entry :=
    le_max_right _ _
  have hm1 : (a.val.lines.length : Int) - a.val.exit ≤
      max ((a.val.lines.length : Int) - a.val.exit)
        ((b.val.lines.length : Int) - b.val.entry) := le_max_left _ _
  have hm2 : (b.val.lines.length : Int) - b.val.entry ≤
      max ((a.val.lines.length : Int) - a.val.exit)
        ((b.val.lines.length : Int) - b.val.entry) := le_max_right _ _
  show 0 ≤ c.val.entry ∧ c.val.entry < (c.val.lines.length : Int) ∧
    0 ≤ c.val.exit ∧ c.val.exit < (c.val.lines.length : Int)
  rw [hv]
  dsimp only
  simp only [List.length_map, List.length_range]
  omega

/-- `append_below` preserves genuine row-index entry/exit. -/
theorem appendBelow_strong (a b : TD) (lb : List String)
    (me mx : Bool) (c : TD) (ha : StrongTD a) (hb : StrongTD b)
    (h : appendBelow a b lb me mx = .ok c) : StrongTD c := by
  unfold appendBelow at h
  obtain ⟨ca, hca, h⟩ := exbind_ok h
  obtain ⟨between, hbet, h⟩ := exbind_ok h
  obtain ⟨cb, hcb, h⟩ := exbind_ok h
  have hv := mkTD_ok h
  obtain ⟨hfa1, hfa2, hfa3⟩ := center_ok_fields hca
  obtain ⟨hfb1, hfb2, hfb3⟩ := center_ok_fields hcb
  have hlb := mapM_ok_length lb between hbet
  obtain ⟨ha1, ha2, ha3, ha4⟩ := ha
  obtain ⟨hb1, hb2, hb3, hb4⟩ := hb
  simp only [TD.entry, TD.exit, TD.height, TD.lines, TDRaw.height] at *
  show 0 ≤ c.val.entry ∧ c.val.entry < (c.val.lines.length : Int) ∧
    0 ≤ c.val.exit ∧ c.val.exit < (c.val.lines.length : Int)
  rw [hv]
  dsimp only
  simp only [List.length_append]
  cases me <;> cases mx <;>
    simp only [show (true = true) = True from by simp,
      show (false = true) = False from by simp, if_true, if_false] <;>
    omega

end Pyrailroad
